import Mathlib

/-!
Verification of the TourConnect Ecuador data-synchronization engine.

This file gives a shallow embedding, in Lean 4, of the pure core of the
`ecuador_data` Django application: the text normalizer, the field extractors
(coordinates, dates, numbers), the heritage enrichment merger and processor,
the staleness check, the per-type synchronization loops, and the cleanup
management command.  Stateful Django operations (ORM queries, caches) are
modelled by explicit state passing: the record store is a structure of lists,
the cache is a function from keys to optional timestamps, and network query
results are parameters.  Machine floats are modelled by the type `PyFloat`
below (exact rationals plus the IEEE specials that the Python `float`
constructor can produce from strings); fallible operations return `Option`
or `Except`.  Theorems at the end of the file settle the specification
claims against these definitions.
-/

namespace TourConnect

/-! ## Python string primitives

The helpers in this section model the fragment of the Python string API used
by the source: `str.split()` (whitespace splitting, empty chunks dropped),
`str.replace` (replace every non-overlapping occurrence, left to right),
substring containment (the `in` operator), `str.lower`/`str.upper` on the
Latin repertoire appearing in the data, and the NFKD-decompose /
encode-ASCII-ignore pipeline used for diacritic stripping.  They are stated
for the ASCII and accented-Latin character range that the repository data
uses; exotic Unicode (full-width digits, unusual whitespace) is out of
scope of every claim below. -/

/-- Characters the Python `str.split()` treats as separators (ASCII fragment). -/
def isPySpace (c : Char) : Bool :=
  c = ' ' || c = '\t' || c = '\n' || c = '\r' || c = '\x0b' || c = '\x0c'

/-- Whitespace splitting with empty chunks dropped, as Python `str.split()`. -/
def pyWordsL (l : List Char) : List (List Char) :=
  (l.foldr
    (fun c acc =>
      if isPySpace c then [] :: acc
      else
        match acc with
        | [] => [[c]]
        | w :: ws => (c :: w) :: ws)
    []).filter (fun w => !w.isEmpty)

/-- Fuel-driven scanner behind `replaceAllL`; the fuel is structural so the
kernel can evaluate it (every step consumes at least one character, so any
fuel of at least the input length gives the fixpoint semantics). -/
def replaceFuel (pat rep : List Char) : ℕ → List Char → List Char
  | 0, l => l
  | _ + 1, [] => []
  | fuel + 1, c :: rest =>
    if pat.isPrefixOf (c :: rest) then
      rep ++ replaceFuel pat rep fuel (rest.drop (pat.length - 1))
    else
      c :: replaceFuel pat rep fuel rest

/-- Replace every non-overlapping occurrence of `pat` by `rep`, scanning left
to right, as Python `str.replace` (for a non-empty `pat`). -/
def replaceAllL (pat rep : List Char) (l : List Char) : List Char :=
  replaceFuel pat rep l.length l

/-- Substring test on character lists, as the Python `in` operator. -/
def isSubL (pat : List Char) : List Char → Bool
  | [] => pat.isEmpty
  | c :: rest => pat.isPrefixOf (c :: rest) || isSubL pat rest

/-- Python `pat in s` for strings. -/
def pyContains (s pat : String) : Bool :=
  isSubL pat.toList s.toList

/-- Python `s.replace(pat, rep)` for strings. -/
def pyReplace (s pat rep : String) : String :=
  ⟨replaceAllL pat.toList rep.toList s.toList⟩

/-- Python `s.split()` for strings. -/
def pySplitWs (s : String) : List String :=
  (pyWordsL s.toList).map (fun l => ⟨l⟩)

/-- Python `str.lower` on one character, for ASCII letters and the accented
Latin letters appearing in the repository data. -/
def pyLowerChar (c : Char) : Char :=
  if 'A' ≤ c ∧ c ≤ 'Z' then Char.ofNat (c.toNat + 32)
  else if c = 'Á' then 'á'
  else if c = 'É' then 'é'
  else if c = 'Í' then 'í'
  else if c = 'Ó' then 'ó'
  else if c = 'Ú' then 'ú'
  else if c = 'Ñ' then 'ñ'
  else if c = 'Ü' then 'ü'
  else c

/-- Python `str.lower` on strings (Latin fragment). -/
def pyLower (s : String) : String :=
  ⟨s.toList.map pyLowerChar⟩

/-- Python `str.upper` on one character (Latin fragment). -/
def pyUpperChar (c : Char) : Char :=
  if 'a' ≤ c ∧ c ≤ 'z' then Char.ofNat (c.toNat - 32)
  else if c = 'á' then 'Á'
  else if c = 'é' then 'É'
  else if c = 'í' then 'Í'
  else if c = 'ó' then 'Ó'
  else if c = 'ú' then 'Ú'
  else if c = 'ñ' then 'Ñ'
  else if c = 'ü' then 'Ü'
  else c

/-- Python `str.upper` on strings (Latin fragment). -/
def pyUpper (s : String) : String :=
  ⟨s.toList.map pyUpperChar⟩

/-- The pipeline `unicodedata.normalize('NFKD', s).encode('ASCII',
'ignore').decode('ASCII')` on one character: ASCII characters pass through,
accented Latin letters decompose to their base letter (the combining accent
is then dropped by the ASCII encode), and every other non-ASCII character is
dropped.  Stated for the Latin repertoire appearing in the repository data. -/
def asciiFoldChar (c : Char) : Option Char :=
  if c.toNat < 128 then some c
  else if c = 'á' ∨ c = 'à' ∨ c = 'ä' ∨ c = 'â' then some 'a'
  else if c = 'é' ∨ c = 'è' ∨ c = 'ë' ∨ c = 'ê' then some 'e'
  else if c = 'í' ∨ c = 'ì' ∨ c = 'ï' ∨ c = 'î' then some 'i'
  else if c = 'ó' ∨ c = 'ò' ∨ c = 'ö' ∨ c = 'ô' then some 'o'
  else if c = 'ú' ∨ c = 'ù' ∨ c = 'ü' ∨ c = 'û' then some 'u'
  else if c = 'ñ' then some 'n'
  else if c = 'Á' then some 'A'
  else if c = 'É' then some 'E'
  else if c = 'Í' then some 'I'
  else if c = 'Ó' then some 'O'
  else if c = 'Ú' then some 'U'
  else if c = 'Ñ' then some 'N'
  else if c = 'Ü' then some 'U'
  else none

/-- NFKD-decompose and ASCII-ignore on strings. -/
def asciiFold (s : String) : String :=
  ⟨s.toList.filterMap asciiFoldChar⟩

/-! ## Python float values and parsing

Values produced by the Python `float(str)` constructor: finite values
(modelled exactly as rationals — the IEEE rounding of decimal literals is
irrelevant to every claim, which only concern which token a value comes
from and order comparisons against small integer bounds), the two
infinities, and NaN.  The parser below follows the CPython grammar for
`float`: optional surrounding whitespace, an optional sign, then either
`inf`/`infinity`/`nan` (case-insensitive) or a decimal literal with optional
fractional part and exponent, with single underscores permitted between
digits. -/

/-- Values of the Python `float` type as produced from strings. -/
inductive PyFloat where
  | finite (q : ℚ)
  | inf
  | negInf
  | nan
  deriving DecidableEq, Repr

/-- Digit-sequence scanner: consumes `digit ((underscore)? digit)*` starting
from an accumulated value and count, returning the value, the number of
digits consumed, and the unconsumed rest. -/
def pyDigitsAux : ℕ → ℕ → List Char → ℕ × ℕ × List Char
  | val, cnt, '_' :: c :: rest =>
    if c.isDigit then pyDigitsAux (10 * val + (c.toNat - '0'.toNat)) (cnt + 1) rest
    else (val, cnt, '_' :: c :: rest)
  | val, cnt, c :: rest =>
    if c.isDigit then pyDigitsAux (10 * val + (c.toNat - '0'.toNat)) (cnt + 1) rest
    else (val, cnt, c :: rest)
  | val, cnt, [] => (val, cnt, [])

/-- Scans an optional digit sequence (possibly empty) from the front. -/
def pyDigits (l : List Char) : ℕ × ℕ × List Char :=
  match l with
  | c :: rest =>
    if c.isDigit then pyDigitsAux (c.toNat - '0'.toNat) 1 rest
    else (0, 0, l)
  | [] => (0, 0, [])

/-- Parses an unsigned decimal float literal (already lowercased, no sign):
`[digits] [. [digits]] [e [sign] digits]` with at least one digit in the
mantissa; returns its exact rational value
`(intPart·10^fc + fracPart) · 10^exp / 10^fc`, built with `mkRat` so the
kernel can evaluate it. -/
def pyParseDecimal (l : List Char) : Option ℚ :=
  let (ip, ic, r1) := pyDigits l
  let (fp, fc, r2) :=
    match r1 with
    | '.' :: rest => pyDigits rest
    | _ => (0, 0, r1)
  if ic + fc = 0 then none
  else
    let mantN : ℤ := ((ip * 10 ^ fc + fp : ℕ) : ℤ)
    let mantD : ℕ := 10 ^ fc
    match r2 with
    | [] => some (mkRat mantN mantD)
    | 'e' :: rest =>
      let (eneg, rest2) :=
        match rest with
        | '+' :: r => (false, r)
        | '-' :: r => (true, r)
        | r => (false, r)
      let (ep, ec, r3) := pyDigits rest2
      if ec = 0 ∨ ¬r3.isEmpty then none
      else if eneg then some (mkRat mantN (mantD * 10 ^ ep))
      else some (mkRat (mantN * 10 ^ ep) mantD)
    | _ => none

/-- Strips the whitespace the Python `float` constructor ignores. -/
def pyStrip (l : List Char) : List Char :=
  ((l.dropWhile isPySpace).reverse.dropWhile isPySpace).reverse

/-- The body of `float(str)` after the optional sign has been removed. -/
def pyFloatBody (neg : Bool) (l : List Char) : Option PyFloat :=
  if l = "inf".toList ∨ l = "infinity".toList then
    some (if neg then PyFloat.negInf else PyFloat.inf)
  else if l = "nan".toList then
    some PyFloat.nan
  else
    (pyParseDecimal l).map fun q => PyFloat.finite (if neg then -q else q)

/-- Python `float(s)`: `some` value on success, `none` when the constructor
raises `ValueError`. -/
def pyFloatOfString (s : String) : Option PyFloat :=
  match (pyStrip s.toList).map pyLowerChar with
  | '+' :: rest => pyFloatBody false rest
  | '-' :: rest => pyFloatBody true rest
  | rest => pyFloatBody false rest

/-- Comparison of a stored float against a rational bound, as Python and the
database evaluate `x < c`: NaN compares false against everything. -/
def PyFloat.ltQ : PyFloat → ℚ → Bool
  | PyFloat.finite q, c => q < c
  | PyFloat.inf, _ => false
  | PyFloat.negInf, _ => true
  | PyFloat.nan, _ => false

/-- Comparison `x > c` with the same conventions as `PyFloat.ltQ`. -/
def PyFloat.gtQ : PyFloat → ℚ → Bool
  | PyFloat.finite q, c => c < q
  | PyFloat.inf, _ => true
  | PyFloat.negInf, _ => false
  | PyFloat.nan, _ => false

/-! ## Bindings, records and stores

A SPARQL variable-binding row is modelled as an association list from
variable name to the literal value (the `{"value": ...}` wrapper of the
JSON results format is collapsed; language tags and datatypes are unused by
the source).  The Django models become structures, a nullable column
becomes an `Option`, and the record store is a structure of lists. -/

/-- One SPARQL result row: variable name to literal value. -/
abbrev Binding : Type := List (String × String)

/-- Models `item.get(k, {}).get("value", "")`. -/
def bindingVal (item : Binding) (k : String) : String :=
  (List.lookup k item).getD ""

/-- Models the truthiness test `if item.get(k)`. -/
def bindingHas (item : Binding) (k : String) : Bool :=
  (List.lookup k item).isSome

/-- Fuel-driven splitter behind `pySplitOn`: splitting on a non-empty
separator as Python `s.split(sep)`, with the current chunk accumulated in
reverse.  An empty input yields one empty chunk; any fuel of at least the
input length gives the fixpoint semantics. -/
def splitFuel (sep : List Char) : ℕ → List Char → List Char → List (List Char)
  | 0, l, cur => [(cur.reverse ++ l)]
  | _ + 1, [], cur => [cur.reverse]
  | fuel + 1, c :: rest, cur =>
    if sep.isPrefixOf (c :: rest) then
      cur.reverse :: splitFuel sep fuel (rest.drop (sep.length - 1)) []
    else
      splitFuel sep fuel rest (c :: cur)

/-- Python `s.split(sep)` for strings and a non-empty separator. -/
def pySplitOn (s sep : String) : List String :=
  (splitFuel sep.toList s.toList.length s.toList []).map (fun l => ⟨l⟩)

/-- Models `url.split("/")[-1]`. -/
def lastSegment (url : String) : String :=
  (pySplitOn url "/").getLastD ""

/-- Models `s.split(sep)[0]` for a non-empty separator. -/
def firstSegmentOn (s sep : String) : String :=
  match pySplitOn s sep with
  | x :: _ => x
  | [] => s

/-- The `Provincia` Django model (persisted columns the sync code touches). -/
structure Provincia where
  nombre : Option String
  capital : String
  poblacion : Option ℤ
  area : Option PyFloat
  latitud : Option PyFloat
  longitud : Option PyFloat
  imagen_url : String
  bandera_url : String
  wikidata_id : String
  cantones : List Binding
  deriving DecidableEq, Repr

/-- The `ParqueNacional` Django model. -/
structure ParqueNacional where
  nombre : Option String
  descripcion : String
  area : Option PyFloat
  fecha_establecimiento : Option String
  latitud : Option PyFloat
  longitud : Option PyFloat
  imagen_url : String
  wikidata_id : String
  deriving DecidableEq, Repr

/-- UNESCO enrichment block built by `_process_enrichments`. -/
structure UnescoBlock where
  fecha_inscripcion : Option String
  criterios : String
  numero_unesco : String
  superficie : Option PyFloat
  visitantes_anuales : Option PyFloat
  deriving DecidableEq, Repr

/-- Archaeological enrichment block built by `_process_enrichments`. -/
structure ArqueologicoBlock where
  cultura : String
  periodo : String
  fecha_descubrimiento : Option String
  descubridor : String
  elevacion : Option PyFloat
  estado_conservacion : String
  deriving DecidableEq, Repr

/-- Religious enrichment block built by `_process_enrichments`. -/
structure ReligiosoBlock where
  religion : String
  diocesis : String
  dedicacion : String
  capacidad : Option PyFloat
  fecha_construccion : Option String
  deriving DecidableEq, Repr

/-- The `detalles_enriquecidos` JSON column: at most one block per source. -/
structure Enriquecidos where
  unesco : Option UnescoBlock
  arqueologico : Option ArqueologicoBlock
  religioso : Option ReligiosoBlock
  deriving DecidableEq, Repr

/-- The empty `detalles_enriquecidos` dictionary. -/
def Enriquecidos.empty : Enriquecidos :=
  ⟨none, none, none⟩

/-- The `SitioPatrimonial` Django model (persisted columns the sync code
touches; physical-measure columns were removed from the model by its
authors, see the comment in `models.py`). -/
structure SitioPatrimonial where
  nombre : Option String
  tipo : String
  subtipo : String
  categoria : String
  descripcion : String
  latitud : Option PyFloat
  longitud : Option PyFloat
  provincia : String
  ciudad : String
  fecha_inicio : Option String
  fecha_fin : Option String
  fecha_inscripcion_unesco : Option String
  arquitecto : String
  estilo_arquitectonico : String
  material : String
  estatus_patrimonial : String
  numero_unesco : String
  criterios_unesco : String
  imagen_url : String
  website : String
  wikipedia_url : String
  commons_url : String
  detalles_enriquecidos : Enriquecidos
  estado_conservacion : String
  wikidata_id : String
  deriving DecidableEq, Repr

/-- The `Plaza` Django model. -/
structure Plaza where
  nombre : Option String
  ciudad : String
  descripcion : String
  latitud : Option PyFloat
  longitud : Option PyFloat
  imagen_url : String
  wikidata_id : String
  deriving DecidableEq, Repr

/-- The record store: one list per Django model. -/
structure Db where
  provincias : List Provincia
  parques : List ParqueNacional
  sitios : List SitioPatrimonial
  plazas : List Plaza
  deriving DecidableEq, Repr

/-- The empty store. -/
def Db.empty : Db :=
  ⟨[], [], [], []⟩

/-- Per-type sync result summary (`{"created": .., "updated": .., "errors": ..}`). -/
structure SyncResult where
  created : ℕ
  updated : ℕ
  errors : List String
  deriving DecidableEq, Repr

/-- The bookkeeping cache: key to recorded timestamp (seconds). -/
def Cache : Type := String → Option ℚ

/-- The empty cache. -/
def Cache.empty : Cache :=
  fun _ => none

/-! ## Field extractors -/

/-- Truncation of an exact rational toward zero, as Python `int(float)`. -/
def ratTruncZ (q : ℚ) : ℤ :=
  Int.tdiv q.num (q.den : ℤ)

deriving instance DecidableEq for Except

/-- Models `_parse_int` (`int(float(value))` guarded by
`except (ValueError, TypeError)`).  An infinite input makes Python `int`
raise `OverflowError`, which that handler does not catch; the model returns
`Except.error ()` there so callers can propagate it to the per-record
handler, as the source does. -/
def parse_int (value : String) : Except Unit (Option ℤ) :=
  if value = "" then Except.ok none
  else
    match pyFloatOfString value with
    | none => Except.ok none
    | some (PyFloat.finite q) => Except.ok (some (ratTruncZ q))
    | some PyFloat.nan => Except.ok none
    | some PyFloat.inf => Except.error ()
    | some PyFloat.negInf => Except.error ()

/-- Models `_parse_float` (`float(value)` guarded by
`except (ValueError, TypeError)`). -/
def parse_float (value : String) : Option PyFloat :=
  if value = "" then none else pyFloatOfString value

/-- The token list both coordinate parsers build:
`coord_str.replace("Point(", "").replace(")", "").split()`. -/
def pointTokens (coord_str : String) : List String :=
  pySplitWs (pyReplace (pyReplace coord_str "Point(" "") ")" "")

/-- Models `OptimizedDataSyncService._parse_coordinates_optimized`: a
successful parse returns `some (lat, lon)`, every other outcome is the
`(None, None)` pair, modelled as `none`. -/
def parse_coordinates_optimized (coord_str : String) : Option (PyFloat × PyFloat) :=
  if ¬ pyContains coord_str "Point(" then none
  else
    match pointTokens coord_str with
    | [c0, c1] =>
      match pyFloatOfString c1, pyFloatOfString c0 with
      | some lat, some lon => some (lat, lon)
      | _, _ => none
    | _ => none

/-- Models `EnhancedHeritageProcessor._parse_coordinates` (same algorithm as
the optimized parser; the Python version returns a
`{latitud, longitud}` dictionary, modelled as the same optional pair). -/
def parse_coordinates_enhanced (coord_str : String) : Option (PyFloat × PyFloat) :=
  if ¬ pyContains coord_str "Point(" then none
  else
    match pointTokens coord_str with
    | [c0, c1] =>
      match pyFloatOfString c1, pyFloatOfString c0 with
      | some lat, some lon => some (lat, lon)
      | _, _ => none
    | _ => none

/-- Models `EnhancedHeritageProcessor._parse_date`: empty input gives
`None`; otherwise the prefix before the first `T`, or the first ten
characters, or the whole string when shorter — with no validation. -/
def parse_date_enhanced (date_str : String) : Option String :=
  if date_str = "" then none
  else if pyContains date_str "T" then some (firstSegmentOn date_str "T")
  else if date_str.length ≥ 10 then some (date_str.take 10)
  else some date_str

/-- Models `datetime.fromisoformat(s).date()` as used by the park sync: the
result is the ISO date string of the date component.  The acceptance set of
`fromisoformat` is modelled loosely (a `YYYY-MM-DD` shape check followed by
an optional time part); no claim below depends on its exact boundary. -/
def pyFromIsoformatDate (s : String) : Option String :=
  let cs := s.toList
  match cs with
  | y1 :: y2 :: y3 :: y4 :: '-' :: m1 :: m2 :: '-' :: d1 :: d2 :: rest =>
    if y1.isDigit ∧ y2.isDigit ∧ y3.isDigit ∧ y4.isDigit ∧ m1.isDigit ∧ m2.isDigit
        ∧ d1.isDigit ∧ d2.isDigit
        ∧ (10 * (m1.toNat - '0'.toNat) + (m2.toNat - '0'.toNat)) ≥ 1
        ∧ (10 * (m1.toNat - '0'.toNat) + (m2.toNat - '0'.toNat)) ≤ 12
        ∧ (10 * (d1.toNat - '0'.toNat) + (d2.toNat - '0'.toNat)) ≥ 1
        ∧ (10 * (d1.toNat - '0'.toNat) + (d2.toNat - '0'.toNat)) ≤ 31
        ∧ (rest.isEmpty ∨ rest.head? = some 'T' ∨ rest.head? = some ' ') then
      some ⟨[y1, y2, y3, y4, '-', m1, m2, '-', d1, d2]⟩
    else none
  | _ => none

/-- Models the park-sync establishment-date snippet:
`datetime.fromisoformat(fecha_str.replace("Z", "+00:00")).date()` guarded by
`except ValueError`, applied only to a non-empty string. -/
def parse_fecha_establecimiento (fecha_str : String) : Option String :=
  if fecha_str = "" then none
  else pyFromIsoformatDate (pyReplace fecha_str "Z" "+00:00")

/-! ## Text normalizer -/

/-- Characters kept by `CLEANUP_PATTERN.sub('', ...)`, whose pattern removes
everything outside `[a-zA-Z0-9\s]`. -/
def isCleanupKept (c : Char) : Bool :=
  ('a' ≤ c ∧ c ≤ 'z') || ('A' ≤ c ∧ c ≤ 'Z') || ('0' ≤ c ∧ c ≤ '9') || isPySpace c

/-- Models `TextProcessor.normalize_name`: NFKD-fold to ASCII, lowercase,
delete the stop substrings in the fixed order of the source, drop
non-alphanumeric characters, strip and delete all remaining whitespace.
The `lru_cache` wrapper is pure memoization and adds nothing to the
denotation. -/
def normalize_name (name : String) : String :=
  if name = "" then ""
  else
    let n := pyLower (asciiFold name)
    let n := pyReplace (pyReplace (pyReplace n "provincia" "") "province" "") "ecuador" ""
    let n := pyReplace (pyReplace (pyReplace (pyReplace n "del" "") "de" "") "la" "") "el" ""
    let n := pyReplace (pyReplace (pyReplace n "los" "") "las" "") "islas" ""
    let n : String := ⟨n.toList.filter isCleanupKept⟩
    let n : String := ⟨(pyStrip n.toList).filter (fun c => ¬ isPySpace c)⟩
    n

/-! ## Heritage category heuristic -/

/-- Models `EnhancedHeritageProcessor._determine_category`: a
first-match-wins, case-insensitive substring test on the raw type label. -/
def determine_category (data : Binding) : String :=
  let tipo := pyLower (bindingVal data "tipoLabel")
  if pyContains tipo "unesco" || pyContains tipo "patrimonio mundial" then "UNESCO"
  else if pyContains tipo "arqueológ" || pyContains tipo "arqueolog" then "Arqueológico"
  else if pyContains tipo "iglesia" || pyContains tipo "catedral" || pyContains tipo "religios" then "Religioso"
  else if pyContains tipo "museo" then "Museo"
  else if pyContains tipo "históric" || pyContains tipo "monument" then "Histórico"
  else "Patrimonial"

/-! ## Staleness check -/

/-- Models `OptimizedDataSyncService._is_database_empty` (the zero-count
test per type; the defensive exception branch cannot arise in the model). -/
def is_database_empty (db : Db) (sync_type : String) : Bool :=
  if sync_type = "provincias" || sync_type = "general" then db.provincias.isEmpty
  else if sync_type = "parques" then db.parques.isEmpty
  else if sync_type = "sitios" then db.sitios.isEmpty
  else if sync_type = "plazas" then db.plazas.isEmpty
  else db.provincias.isEmpty || db.parques.isEmpty || db.sitios.isEmpty || db.plazas.isEmpty

/-- Models `OptimizedDataSyncService.should_sync`.  `now` is the current
time and `interval` the configured `SPARQL_SYNC_INTERVAL` (its Django
default is 21600 seconds); the function only reads the store and the
cache. -/
def should_sync (db : Db) (cache : Cache) (now interval : ℚ) (sync_type : String) : Bool :=
  if is_database_empty db sync_type then true
  else
    match cache ("last_sync_" ++ sync_type) with
    | none => true
    | some last_sync => now - last_sync > interval

/-- Row count of the store list that `_is_database_empty` inspects for one
of the four entity types. -/
def typeRowCount (db : Db) (t : String) : ℕ :=
  if t = "provincias" then db.provincias.length
  else if t = "parques" then db.parques.length
  else if t = "sitios" then db.sitios.length
  else db.plazas.length

/-- Models `OptimizedDataSyncService.mark_synced` (the 86400-second cache
TTL is not modelled; expiry would appear as `none` on a later read). -/
def mark_synced (cache : Cache) (now : ℚ) (sync_type : String) : Cache :=
  fun k => if k = "last_sync_" ++ sync_type then some now else cache k

/-! ## Dictionary and list helpers for the loops -/

/-- Python dictionary assignment `m[k] = v` on an association list with
unique keys: overwrite in place when the key exists, append otherwise. -/
def dictSet {α : Type} (m : List (String × α)) (k : String) (v : α) : List (String × α) :=
  if (List.lookup k m).isSome then
    m.map (fun p => if p.1 = k then (k, v) else p)
  else
    m ++ [(k, v)]

/-- Replaces the first element satisfying `p` by its image under `f`. -/
def updateFirstBy {α : Type} (p : α → Bool) (f : α → α) : List α → List α
  | [] => []
  | x :: xs => if p x then f x :: xs else x :: updateFirstBy p f xs

/-- Models Django `queryset.filter(...).delete()`: the surviving rows and
the number of deleted rows. -/
def deleteWhere {α : Type} (p : α → Bool) (l : List α) : List α × ℕ :=
  (l.filter (fun x => ! p x), (l.filter p).length)

/-! ## Province sync (concurrent variant)

The concurrency of `sync_provincias_concurrent` is pure query fan-out: the
three SPARQL queries are independent and their results are collected before
any processing, so the loop below receives them as parameters (`none`
models a failed or timed-out query, which the source records as a `None`
result).  The in-loop `get_or_create` plus deferred `bulk_update` is
modelled by its net store effect: matched records get the bulk-updated
field list overwritten (everything except `nombre` and `wikidata_id`),
unmatched bindings append a fresh record.  Django would raise
`MultipleObjectsReturned` if several records shared one `nombre`; the model
updates the first match, which coincides with Django whenever names are
unique in the store. -/

/-- Models `OptimizedDataSyncService._process_banderas`. -/
def process_banderas (dbpedia_results : Option (List Binding)) : List (String × String) :=
  match dbpedia_results with
  | none => []
  | some items =>
    items.foldl
      (fun flags item =>
        let name := bindingVal item "provinciaLabel"
        let flag := bindingVal item "banderaSVG"
        if name ≠ "" ∧ flag ≠ "" ∧ flag.startsWith "http" ∧ flag.endsWith ".svg" then
          let flags := dictSet flags (pyLower name) flag
          let normalized := normalize_name name
          if normalized ≠ "" then dictSet flags normalized flag else flags
        else flags)
      []

/-- Models `OptimizedDataSyncService._get_best_flag_url` (the Python `or`
falls through on a missing key or an empty stored value). -/
def get_best_flag_url (item : Binding) (dbpedia_flags : List (String × String))
    (nombre : String) : String :=
  let wikidata_flag := bindingVal item "bandera"
  if wikidata_flag ≠ "" then wikidata_flag
  else
    let normalized := normalize_name nombre
    match List.lookup (pyLower nombre) dbpedia_flags with
    | some f => if f ≠ "" then f else (List.lookup normalized dbpedia_flags).getD ""
    | none => (List.lookup normalized dbpedia_flags).getD ""

/-- Models `OptimizedDataSyncService._get_cantones_for_provincia`. -/
def get_cantones_for_provincia (provincia_cantones : List (String × List Binding))
    (nombre : String) : List Binding :=
  if provincia_cantones.isEmpty then []
  else
    let normalized := normalize_name nombre
    match provincia_cantones.find?
        (fun p => normalize_name (firstSegmentOn p.1 " Province") = normalized) with
    | some p => p.2
    | none => []

/-- The source key of one province binding:
`item.get("provincia", {}).get("value", "").split("/")[-1] if item.get("provincia") else ""`. -/
def provinciaKeyOf (item : Binding) : String :=
  if bindingHas item "provincia" then lastSegment (bindingVal item "provincia") else ""

/-- Builds the `defaults` dictionary of the province upsert from one
binding; `Except.error` models the uncaught `OverflowError` that
`_parse_int` lets escape on an infinite population value. -/
def provinciaFromItem (item : Binding) (nombre bandera_url : String)
    (cantones : List Binding) (lat lon : Option PyFloat) : Except Unit Provincia := do
  let pob ← parse_int (bindingVal item "poblacion")
  Except.ok
    { nombre := some nombre
      capital := bindingVal item "capitalLabel"
      poblacion := pob
      area := parse_float (bindingVal item "area")
      latitud := lat
      longitud := lon
      imagen_url := bindingVal item "imagen"
      bandera_url := bandera_url
      wikidata_id := provinciaKeyOf item
      cantones := cantones }

/-- One iteration of the `sync_provincias_concurrent` processing loop.
`Provincia.wikidata_id` is declared `unique=True` (models.py:16), so on a
name miss whose incoming source key (possibly the empty string, when
duplicated) already belongs to a stored record, the `INSERT` issued by
`get_or_create` violates the unique constraint: `get_or_create` re-fetches
by `nombre`, finds nothing, re-raises `IntegrityError`, and the loop's
handler appends an error, leaving the store unchanged.  The update path
never writes `wikidata_id` (the `bulk_update` field list excludes it), so
it cannot hit the constraint. -/
def provStep (flags : List (String × String)) (cmap : List (String × List Binding))
    (acc : List Provincia × SyncResult) (item : Binding) : List Provincia × SyncResult :=
  let (store, res) := acc
  let nombre := bindingVal item "provinciaLabel"
  if nombre = "" then acc
  else
    let coords := parse_coordinates_optimized (bindingVal item "coordenadas")
    let bandera_url := get_best_flag_url item flags nombre
    let cantones := get_cantones_for_provincia cmap nombre
    match provinciaFromItem item nombre bandera_url cantones (coords.map Prod.fst) (coords.map Prod.snd) with
    | Except.error _ =>
      (store, { res with errors := res.errors ++ ["Error procesando provincia " ++ nombre] })
    | Except.ok newRec =>
      if store.any (fun r => r.nombre = some nombre) then
        (updateFirstBy (fun r => r.nombre = some nombre)
          (fun old =>
            { old with
              capital := newRec.capital
              poblacion := newRec.poblacion
              area := newRec.area
              latitud := newRec.latitud
              longitud := newRec.longitud
              imagen_url := newRec.imagen_url
              bandera_url := newRec.bandera_url
              cantones := newRec.cantones })
          store,
         { res with updated := res.updated + 1 })
      else if store.any (fun r => r.wikidata_id = provinciaKeyOf item) then
        (store, { res with errors := res.errors ++ ["Error procesando provincia " ++ nombre] })
      else
        (store ++ [newRec], { res with created := res.created + 1 })

/-- Models `OptimizedDataSyncService.sync_provincias_concurrent`.  The three
query results are parameters; `none` stands for a query that failed or
timed out (recorded as `None` by the source).  Returns the new store, the
new bookkeeping cache and the result summary. -/
def sync_provincias_concurrent (db : Db) (cache : Cache) (now interval : ℚ)
    (wikidataRes banderasRes : Option (List Binding))
    (cantonesRes : Option (List (String × List Binding))) : Db × Cache × SyncResult :=
  if ¬ should_sync db cache now interval "provincias" then
    (db, cache, ⟨0, 0, []⟩)
  else if wikidataRes = none ∨ wikidataRes = some [] then
    (db, cache, ⟨0, 0, ["No se pudieron obtener datos de Wikidata"]⟩)
  else
    let items := wikidataRes.getD []
    let flags := process_banderas banderasRes
    let cmap := cantonesRes.getD []
    let (store, res) := items.foldl (provStep flags cmap) (db.provincias, ⟨0, 0, []⟩)
    let cache := mark_synced cache now "provincias"
    let cache : Cache := fun k => if k = "dashboard_stats" then none else cache k
    ({ db with provincias := store }, cache, res)

/-! ## Park sync -/

/-- The source key of one park binding:
`item.get("parque", {}).get("value", "").split("/")[-1] if item.get("parque") else ""`. -/
def parqueKeyOf (item : Binding) : String :=
  if bindingHas item "parque" then lastSegment (bindingVal item "parque") else ""

/-- One iteration of the `sync_parques_nacionales` processing loop (the
optimized service; its upsert is `update_or_create(nombre=nombre, ...)`,
which overwrites every default field of the first record matching the
name, `wikidata_id` included).  `ParqueNacional.wikidata_id` is declared
`unique=True` (models.py:41), so both paths can raise `IntegrityError`,
which the loop's handler turns into an error entry with no write: on a
name match, the `save` rewrites `wikidata_id`, which fails when a
differently-named record already holds the incoming key; on a name miss,
the `INSERT` fails when any stored record already holds it. -/
def parqueStep (acc : List ParqueNacional × SyncResult) (item : Binding)
    : List ParqueNacional × SyncResult :=
  let (store, res) := acc
  let nombre := bindingVal item "parqueLabel"
  if nombre = "" then acc
  else
    let coords := parse_coordinates_optimized (bindingVal item "coords")
    let newRec : ParqueNacional :=
      { nombre := some nombre
        descripcion := bindingVal item "descripcion"
        area := parse_float (bindingVal item "area")
        fecha_establecimiento := parse_fecha_establecimiento (bindingVal item "establecido")
        latitud := coords.map Prod.fst
        longitud := coords.map Prod.snd
        imagen_url := bindingVal item "imagen"
        wikidata_id := parqueKeyOf item }
    if store.any (fun r => r.nombre = some nombre) then
      if store.any (fun r => ¬ r.nombre = some nombre ∧ r.wikidata_id = parqueKeyOf item) then
        (store, { res with errors := res.errors ++ ["Error procesando parque " ++ nombre] })
      else
        (updateFirstBy (fun r => r.nombre = some nombre) (fun _ => newRec) store,
         { res with updated := res.updated + 1 })
    else
      if store.any (fun r => r.wikidata_id = parqueKeyOf item) then
        (store, { res with errors := res.errors ++ ["Error procesando parque " ++ nombre] })
      else
        (store ++ [newRec], { res with created := res.created + 1 })

/-- Models `OptimizedDataSyncService.sync_parques_nacionales`. -/
def sync_parques_nacionales (db : Db) (cache : Cache) (now interval : ℚ)
    (wikidataRes : Option (List Binding)) : Db × Cache × SyncResult :=
  if ¬ should_sync db cache now interval "parques" then
    (db, cache, ⟨0, 0, []⟩)
  else if wikidataRes = none ∨ wikidataRes = some [] then
    (db, cache, ⟨0, 0, ["No se pudieron obtener datos de parques desde Wikidata"]⟩)
  else
    let items := wikidataRes.getD []
    let (store, res) := items.foldl parqueStep (db.parques, ⟨0, 0, []⟩)
    ({ db with parques := store }, mark_synced cache now "parques", res)

/-! ## Plaza sync

The plaza upsert is `update_or_create(wikidata_id=..., defaults=plaza_data)`
where `plaza_data` contains a `provincia` key although the `Plaza` model has
no such field.  On the update path Django assigns defaults with `setattr`,
so the stray key is silently ignored and the persisted fields are
overwritten; on the create path `Plaza(**plaza_data)` raises `TypeError`,
which the per-record handler converts into an error entry — so this sync
can update existing plazas but never creates one. -/

/-- The upsert key of one plaza binding:
`item.get("plaza", {}).get("value", "").split("/")[-1] if item.get("plaza") else None`. -/
def plazaKeyOf (item : Binding) : Option String :=
  if bindingHas item "plaza" then some (lastSegment (bindingVal item "plaza")) else none

/-- One iteration of the `sync_plazas_optimized` processing loop. -/
def plazaStep (acc : List Plaza × SyncResult) (item : Binding) : List Plaza × SyncResult :=
  let (store, res) := acc
  let nombre := bindingVal item "plazaLabel"
  if nombre = "" then acc
  else
    let coords := parse_coordinates_optimized (bindingVal item "coordenadas")
    let key : Option String := plazaKeyOf item
    if store.any (fun r => key = some r.wikidata_id) then
      (updateFirstBy (fun r => key = some r.wikidata_id)
        (fun old =>
          { old with
            nombre := some nombre
            ciudad := bindingVal item "ciudadLabel"
            descripcion := bindingVal item "descripcion"
            latitud := coords.map Prod.fst
            longitud := coords.map Prod.snd
            imagen_url := bindingVal item "imagen" })
        store,
       { res with updated := res.updated + 1 })
    else
      (store, { res with errors := res.errors ++ ["Error procesando plaza " ++ nombre] })

/-- Models `OptimizedDataSyncService.sync_plazas_optimized`. -/
def sync_plazas_optimized (db : Db) (cache : Cache) (now interval : ℚ)
    (wikidataRes : Option (List Binding)) : Db × Cache × SyncResult :=
  if ¬ should_sync db cache now interval "plazas" then
    (db, cache, ⟨0, 0, []⟩)
  else if wikidataRes = none ∨ wikidataRes = some [] then
    (db, cache, ⟨0, 0, ["No se pudieron obtener datos de plazas desde Wikidata"]⟩)
  else
    let items := wikidataRes.getD []
    let (store, res) := items.foldl plazaStep (db.plazas, ⟨0, 0, []⟩)
    ({ db with plazas := store }, mark_synced cache now "plazas", res)

/-! ## Heritage enrichment merge and processing -/

/-- One entry of the merged-sites dictionary built by
`EnhancedHeritageService.merge_heritage_data`. -/
structure MergedSite where
  source : String
  data : Binding
  enrichments : List (String × Binding)
  deriving DecidableEq, Repr

/-- Inserts one primary record into the merged-sites dictionary. -/
def mergePrimaryStep (m : List (String × MergedSite)) (site : Binding)
    : List (String × MergedSite) :=
  let site_id := bindingVal site "sitio"
  if site_id = "" then m
  else dictSet m site_id ⟨"wikidata_general", site, []⟩

/-- Appends one detail record to the entry carrying its source key, when
that key already exists in the merged-sites dictionary. -/
def mergeEnrichOne (source_name : String) (m : List (String × MergedSite))
    (site : Binding) : List (String × MergedSite) :=
  let site_id := bindingVal site "sitio"
  if (List.lookup site_id m).isSome then
    updateFirstBy (fun p => p.1 = site_id)
      (fun p => (p.1, { p.2 with enrichments := p.2.enrichments ++ [(source_name, site)] }))
      m
  else m

/-- Appends the detail records of one secondary list to the entries whose
source key already exists in the merged-sites dictionary. -/
def mergeEnrichStep (m : List (String × MergedSite)) (detailed : List Binding)
    (source_name : String) : List (String × MergedSite) :=
  detailed.foldl (mergeEnrichOne source_name) m

/-- Models `EnhancedHeritageService.merge_heritage_data`.  The five query
results are parameters (`none` for a failed query; the source replaces a
falsy result by `[]`).  The DBpedia list is fetched by the source but never
used in the merge; it is kept as a parameter for fidelity. -/
def merge_heritage_data (wikidata_general dbpedia_data unesco_detailed
    archaeological_detailed religious_detailed : Option (List Binding)) : List MergedSite :=
  let wg := wikidata_general.getD []
  let _ := dbpedia_data.getD []
  let m := wg.foldl mergePrimaryStep []
  let m := mergeEnrichStep m (unesco_detailed.getD []) "unesco"
  let m := mergeEnrichStep m (archaeological_detailed.getD []) "archaeological"
  let m := mergeEnrichStep m (religious_detailed.getD []) "religious"
  m.map Prod.snd

/-- Models `EnhancedHeritageProcessor._extract_wikidata_id`. -/
def extract_wikidata_id (wikidata_url : String) : String :=
  if wikidata_url = "" then "" else lastSegment wikidata_url

/-- Models `EnhancedHeritageProcessor._process_enrichments`. -/
def process_enrichments (enrichments : List (String × Binding)) : Enriquecidos :=
  enrichments.foldl
    (fun processed e =>
      let data := e.2
      if e.1 = "unesco" then
        { processed with
          unesco := some
            { fecha_inscripcion := parse_date_enhanced (bindingVal data "fechaInscripcion")
              criterios := bindingVal data "criterios"
              numero_unesco := bindingVal data "numeroUNESCO"
              superficie := parse_float (bindingVal data "superficie")
              visitantes_anuales := parse_float (bindingVal data "visitantesAnuales") } }
      else if e.1 = "archaeological" then
        { processed with
          arqueologico := some
            { cultura := bindingVal data "culturaLabel"
              periodo := bindingVal data "periodoLabel"
              fecha_descubrimiento := parse_date_enhanced (bindingVal data "fechaDescubrimiento")
              descubridor := bindingVal data "descubridorLabel"
              elevacion := parse_float (bindingVal data "elevacion")
              estado_conservacion := bindingVal data "estadoLabel" } }
      else if e.1 = "religious" then
        { processed with
          religioso := some
            { religion := bindingVal data "religionLabel"
              diocesis := bindingVal data "diocesisLabel"
              dedicacion := bindingVal data "dedicacionLabel"
              capacidad := parse_float (bindingVal data "capacidad")
              fecha_construccion := parse_date_enhanced (bindingVal data "fechaConstruccion") } }
      else processed)
    Enriquecidos.empty

/-- The flat record shape produced by
`EnhancedHeritageProcessor.process_heritage_sites` for one merged site. -/
structure ProcessedSite where
  wikidata_id : String
  nombre : String
  descripcion : String
  tipo_principal : String
  subtipo : String
  categoria : String
  coordenadas : Option (PyFloat × PyFloat)
  provincia : String
  ciudad : String
  fecha_creacion : Option String
  fecha_inicio : Option String
  fecha_fin : Option String
  arquitecto : String
  estilo_arquitectonico : String
  material : String
  estatus_patrimonial : String
  altura : Option PyFloat
  area : Option PyFloat
  imagen_url : String
  website : String
  wikipedia_url : String
  commons_url : String
  detalles_enriquecidos : Enriquecidos
  deriving DecidableEq, Repr

/-- Processing of one merged site inside `process_heritage_sites`. -/
def processSite (ms : MergedSite) : ProcessedSite :=
  let base := ms.data
  { wikidata_id := extract_wikidata_id (bindingVal base "sitio")
    nombre := bindingVal base "sitioLabel"
    descripcion := bindingVal base "sitioDescription"
    tipo_principal := bindingVal base "tipoLabel"
    subtipo := bindingVal base "subtipoLabel"
    categoria := determine_category base
    coordenadas := parse_coordinates_enhanced (bindingVal base "coords")
    provincia := bindingVal base "provinciaLabel"
    ciudad := bindingVal base "ciudadLabel"
    fecha_creacion := parse_date_enhanced (bindingVal base "fechaCreacion")
    fecha_inicio := parse_date_enhanced (bindingVal base "fechaInicio")
    fecha_fin := parse_date_enhanced (bindingVal base "fechaFin")
    arquitecto := bindingVal base "arquitectoLabel"
    estilo_arquitectonico := bindingVal base "estiloLabel"
    material := bindingVal base "materialLabel"
    estatus_patrimonial := bindingVal base "patrimonioLabel"
    altura := parse_float (bindingVal base "altura")
    area := parse_float (bindingVal base "area")
    imagen_url := bindingVal base "imagen"
    website := bindingVal base "website"
    wikipedia_url := bindingVal base "wikipedia"
    commons_url := bindingVal base "commons"
    detalles_enriquecidos := process_enrichments ms.enrichments }

/-- Models `EnhancedHeritageProcessor.process_heritage_sites` applied to an
already merged dataset. -/
def process_heritage_sites (raw_data : List MergedSite) : List ProcessedSite :=
  raw_data.map processSite

/-! ## Heritage-site sync

The site upsert is `update_or_create(wikidata_id=..., defaults=...)` whose
defaults include keys the `SitioPatrimonial` model does not define
(`fecha_creacion`, `altura`, `area`, `superficie`, `visitantes_anuales`,
`elevacion`, `capacidad`): on the update path they are assigned as plain
attributes and silently dropped at save time, on the create path
`SitioPatrimonial(**kwargs)` raises `TypeError`, caught per record — so
this sync, too, updates but never creates. -/

/-- The `tipo_mapping` dictionary lookup with default `HISTORICO`. -/
def tipo_mapping (categoria : String) : String :=
  if categoria = "UNESCO" then "UNESCO"
  else if categoria = "ARQUEOLOGICO" then "ARQUEOLOGICO"
  else if categoria = "HISTORICO" then "HISTORICO"
  else if categoria = "RELIGIOSO" then "RELIGIOSO"
  else if categoria = "MUSEO" then "MUSEO"
  else if categoria = "PATRIMONIAL" then "HISTORICO"
  else "HISTORICO"

/-- Models the truthiness-guarded `datetime.fromisoformat(x).date()` used
for the site date fields (a falsy — absent or empty — value and any parse
failure both yield `None`). -/
def sitioDateOf (v : Option String) : Option String :=
  match v with
  | none => none
  | some s => if s = "" then none else pyFromIsoformatDate s

/-- One iteration of the `sync_sitios_patrimoniales_enhanced` loop. -/
def sitioStep (acc : List SitioPatrimonial × SyncResult) (site : ProcessedSite)
    : List SitioPatrimonial × SyncResult :=
  let (store, res) := acc
  if site.wikidata_id = "" then acc
  else
    let tipo := tipo_mapping (pyUpper site.categoria)
    let fecha_creacion := sitioDateOf site.fecha_creacion
    let _ := fecha_creacion
    let fecha_inicio := sitioDateOf site.fecha_inicio
    let detalles_unesco := site.detalles_enriquecidos.unesco
    let fecha_inscripcion_unesco := sitioDateOf (detalles_unesco.bind (·.fecha_inscripcion))
    if store.any (fun r => r.wikidata_id = site.wikidata_id) then
      (updateFirstBy (fun r => r.wikidata_id = site.wikidata_id)
        (fun old =>
          { old with
            nombre := some site.nombre
            tipo := tipo
            subtipo := site.subtipo
            categoria := site.categoria
            descripcion := site.descripcion
            latitud := site.coordenadas.map Prod.fst
            longitud := site.coordenadas.map Prod.snd
            provincia := site.provincia
            ciudad := site.ciudad
            fecha_inicio := fecha_inicio
            fecha_inscripcion_unesco := fecha_inscripcion_unesco
            arquitecto := site.arquitecto
            estilo_arquitectonico := site.estilo_arquitectonico
            material := site.material
            estatus_patrimonial := site.estatus_patrimonial
            numero_unesco := (detalles_unesco.map (·.numero_unesco)).getD ""
            criterios_unesco := (detalles_unesco.map (·.criterios)).getD ""
            estado_conservacion :=
              ((site.detalles_enriquecidos.arqueologico.map (·.estado_conservacion)).getD "")
            imagen_url := site.imagen_url
            website := site.website
            wikipedia_url := site.wikipedia_url
            commons_url := site.commons_url
            detalles_enriquecidos := site.detalles_enriquecidos })
        store,
       { res with updated := res.updated + 1 })
    else
      (store, { res with errors := res.errors ++ ["Error procesando sitio " ++ site.nombre] })

/-- Models `OptimizedDataSyncService.sync_sitios_patrimoniales_enhanced`.
The five heritage query results are parameters.  Note the absence of a
no-data guard: an empty merged dataset is treated as a successful sync
(no error entry, `mark_synced` still runs). -/
def sync_sitios_patrimoniales_enhanced (db : Db) (cache : Cache) (now interval : ℚ)
    (wikidata_general dbpedia_data unesco_detailed archaeological_detailed
      religious_detailed : Option (List Binding)) : Db × Cache × SyncResult :=
  if ¬ should_sync db cache now interval "sitios" then
    (db, cache, ⟨0, 0, []⟩)
  else
    let enhanced_sites := process_heritage_sites
      (merge_heritage_data wikidata_general dbpedia_data unesco_detailed
        archaeological_detailed religious_detailed)
    let (store, res) := enhanced_sites.foldl sitioStep (db.sitios, ⟨0, 0, []⟩)
    ({ db with sitios := store }, mark_synced cache now "sitios", res)

/-! ## Cleanup management command -/

/-- The fixed known-good set of 24 province identifiers from
`load_and_clean_data.py`. -/
def ecuador_provinces : List String :=
  ["Q220451", "Q261165", "Q321729", "Q335471", "Q238492", "Q241140",
   "Q466019", "Q335526", "Q335464", "Q321863", "Q504238", "Q504260",
   "Q504666", "Q549522", "Q211900", "Q499475", "Q214814", "Q272586",
   "Q475038", "Q504252", "Q1124125", "Q1123208", "Q499456", "Q744670"]

/-- Latitude out-of-range test: the disjunction of the two latitude delete
filters (`latitud__lt=-5.0`, `latitud__gt=2.0`); a NULL column never
matches a range filter in Django, so an absent latitude is in range. -/
def latOut (lat : Option PyFloat) : Bool :=
  (lat.map (fun v => v.ltQ (-5))).getD false || (lat.map (fun v => v.gtQ 2)).getD false

/-- Longitude out-of-range test: the disjunction of the two longitude
delete filters (`longitud__lt=-92.0`, `longitud__gt=-75.0`). -/
def lonOut (lon : Option PyFloat) : Bool :=
  (lon.map (fun v => v.ltQ (-92))).getD false || (lon.map (fun v => v.gtQ (-75))).getD false

/-- The province passes of `clean_irrelevant_data`: null name, empty name,
then source key outside the known-good set. -/
def cleanProvincias (l : List Provincia) : List Provincia × ℕ :=
  let (ps, c1) := deleteWhere (fun r : Provincia => r.nombre = none) l
  let (ps, c2) := deleteWhere (fun r : Provincia => r.nombre = some "") ps
  let (ps, c3) := deleteWhere (fun r : Provincia => ¬ r.wikidata_id ∈ ecuador_provinces) ps
  (ps, c1 + c2 + c3)

/-- The park passes of `clean_irrelevant_data`: null name, empty name, then
the four bounding-box deletes in source order. -/
def cleanParques (l : List ParqueNacional) : List ParqueNacional × ℕ :=
  let (pq, c1) := deleteWhere (fun r : ParqueNacional => r.nombre = none) l
  let (pq, c2) := deleteWhere (fun r : ParqueNacional => r.nombre = some "") pq
  let (pq, c3) := deleteWhere (fun r : ParqueNacional => (r.latitud.map (fun v => v.ltQ (-5))).getD false) pq
  let (pq, c4) := deleteWhere (fun r : ParqueNacional => (r.latitud.map (fun v => v.gtQ 2)).getD false) pq
  let (pq, c5) := deleteWhere (fun r : ParqueNacional => (r.longitud.map (fun v => v.ltQ (-92))).getD false) pq
  let (pq, c6) := deleteWhere (fun r : ParqueNacional => (r.longitud.map (fun v => v.gtQ (-75))).getD false) pq
  (pq, c1 + c2 + c3 + c4 + c5 + c6)

/-- The heritage-site passes of `clean_irrelevant_data`. -/
def cleanSitios (l : List SitioPatrimonial) : List SitioPatrimonial × ℕ :=
  let (st, c1) := deleteWhere (fun r : SitioPatrimonial => r.nombre = none) l
  let (st, c2) := deleteWhere (fun r : SitioPatrimonial => r.nombre = some "") st
  let (st, c3) := deleteWhere (fun r : SitioPatrimonial => (r.latitud.map (fun v => v.ltQ (-5))).getD false) st
  let (st, c4) := deleteWhere (fun r : SitioPatrimonial => (r.latitud.map (fun v => v.gtQ 2)).getD false) st
  let (st, c5) := deleteWhere (fun r : SitioPatrimonial => (r.longitud.map (fun v => v.ltQ (-92))).getD false) st
  let (st, c6) := deleteWhere (fun r : SitioPatrimonial => (r.longitud.map (fun v => v.gtQ (-75))).getD false) st
  (st, c1 + c2 + c3 + c4 + c5 + c6)

/-- The plaza passes of `clean_irrelevant_data`. -/
def cleanPlazas (l : List Plaza) : List Plaza × ℕ :=
  let (pz, c1) := deleteWhere (fun r : Plaza => r.nombre = none) l
  let (pz, c2) := deleteWhere (fun r : Plaza => r.nombre = some "") pz
  let (pz, c3) := deleteWhere (fun r : Plaza => (r.latitud.map (fun v => v.ltQ (-5))).getD false) pz
  let (pz, c4) := deleteWhere (fun r : Plaza => (r.latitud.map (fun v => v.gtQ 2)).getD false) pz
  let (pz, c5) := deleteWhere (fun r : Plaza => (r.longitud.map (fun v => v.ltQ (-92))).getD false) pz
  let (pz, c6) := deleteWhere (fun r : Plaza => (r.longitud.map (fun v => v.gtQ (-75))).getD false) pz
  (pz, c1 + c2 + c3 + c4 + c5 + c6)

/-- Models `Command.clean_irrelevant_data`: the exact sequence of
filter-and-delete passes of the management command (province passes first,
then parks, sites, plazas, exactly as in the source), returning the cleaned
store and the reported total `cleaned_count` of deleted rows. -/
def clean_irrelevant_data (db : Db) : Db × ℕ :=
  let (ps, n1) := cleanProvincias db.provincias
  let (pq, n2) := cleanParques db.parques
  let (st, n3) := cleanSitios db.sitios
  let (pz, n4) := cleanPlazas db.plazas
  (⟨ps, pq, st, pz⟩, n1 + n2 + n3 + n4)

/-! ## General lemmas about the list helpers -/

theorem deleteWhere_length {α : Type} (p : α → Bool) (l : List α) :
    (deleteWhere p l).1.length + (deleteWhere p l).2 = l.length := by
  simp only [deleteWhere]
  rw [Nat.add_comm]
  exact (List.length_eq_length_filter_add p).symm

theorem deleteWhere_mem {α : Type} (p : α → Bool) (l : List α) (x : α) :
    x ∈ (deleteWhere p l).1 ↔ x ∈ l ∧ p x = false := by
  simp [deleteWhere]

theorem updateFirstBy_length {α : Type} (p : α → Bool) (f : α → α) (l : List α) :
    (updateFirstBy p f l).length = l.length := by
  induction l with
  | nil => rfl
  | cons a l ih =>
    by_cases h : p a = true <;> simp [updateFirstBy, h, ih]

theorem updateFirstBy_mem {α : Type} {p : α → Bool} {f : α → α} {x : α} {l : List α}
    (hx : x ∈ updateFirstBy p f l) : x ∈ l ∨ ∃ y, y ∈ l ∧ p y = true ∧ x = f y := by
  induction l with
  | nil => exact absurd hx (by simp [updateFirstBy])
  | cons a l ih =>
    rw [updateFirstBy] at hx
    by_cases h : p a = true
    · rw [if_pos h] at hx
      rcases List.mem_cons.mp hx with hx1 | hx1
      · exact Or.inr ⟨a, List.mem_cons_self a l, h, hx1⟩
      · exact Or.inl (List.mem_cons_of_mem a hx1)
    · rw [if_neg h] at hx
      rcases List.mem_cons.mp hx with hx1 | hx1
      · exact Or.inl (hx1 ▸ List.mem_cons_self a l)
      · rcases ih hx1 with hy | ⟨y, hy, hp, hxy⟩
        · exact Or.inl (List.mem_cons_of_mem a hy)
        · exact Or.inr ⟨y, List.mem_cons_of_mem a hy, hp, hxy⟩

theorem updateFirstBy_map {α β : Type} (g : α → β) (p : α → Bool) (f : α → α)
    (hf : ∀ a, g (f a) = g a) (l : List α) :
    (updateFirstBy p f l).map g = l.map g := by
  induction l with
  | nil => rfl
  | cons a l ih =>
    by_cases h : p a = true <;> simp [updateFirstBy, h, ih, hf]

theorem dictSet_map_fst {α : Type} (m : List (String × α)) (k : String) (v : α) :
    (dictSet m k v).map Prod.fst =
      if (List.lookup k m).isSome then m.map Prod.fst else m.map Prod.fst ++ [k] := by
  unfold dictSet
  split
  · rw [List.map_map]
    apply List.map_congr_left
    intro p _
    by_cases h : p.1 = k <;> simp [h]
  · simp

theorem dictSet_mem {α : Type} {m : List (String × α)} {k : String} {v : α} {e : String × α}
    (he : e ∈ dictSet m k v) : e ∈ m ∨ e = (k, v) := by
  unfold dictSet at he
  split at he
  · rcases List.mem_map.mp he with ⟨p, hp, hpe⟩
    by_cases h : p.1 = k
    · simp only [h, if_true] at hpe
      exact Or.inr hpe.symm
    · simp only [h, if_false] at hpe
      exact Or.inl (hpe ▸ hp)
  · rcases List.mem_append.mp he with h | h
    · exact Or.inl h
    · exact Or.inr (List.mem_singleton.mp h)

theorem lookup_isSome_iff {α : Type} (k : String) (m : List (String × α)) :
    (List.lookup k m).isSome = true ↔ k ∈ m.map Prod.fst := by
  induction m with
  | nil => simp [List.lookup]
  | cons a m ih =>
    by_cases h : k = a.1
    · simp [List.lookup, h]
    · have hbeq : (k == a.1) = false := beq_eq_false_iff_ne.mpr h
      simp [List.lookup, hbeq, ih, h]

theorem length_dedup_eq_card {α : Type} [DecidableEq α] (l : List α) :
    l.dedup.length = l.toFinset.card := by
  rw [← List.toFinset_card_of_nodup (List.nodup_dedup l)]
  congr 1
  ext a
  simp

theorem nodup_length_eq_dedup {l1 l2 : List String} (h1 : l1.Nodup)
    (h2 : ∀ k, k ∈ l1 ↔ k ∈ l2) : l1.length = l2.dedup.length := by
  rw [length_dedup_eq_card, ← List.toFinset_card_of_nodup h1]
  congr 1
  ext a
  simp [h2 a]

/-! ## Lemmas about the heritage merge -/

theorem mergePrimaryStep_keys (m : List (String × MergedSite)) (s : Binding) (k : String) :
    k ∈ (mergePrimaryStep m s).map Prod.fst ↔
      k ∈ m.map Prod.fst ∨ (k ≠ "" ∧ k = bindingVal s "sitio") := by
  unfold mergePrimaryStep
  by_cases h : bindingVal s "sitio" = ""
  · rw [if_pos h]
    constructor
    · exact Or.inl
    · rintro (hk | ⟨hne, hk⟩)
      · exact hk
      · exact absurd (hk.trans h) hne
  · rw [if_neg h, dictSet_map_fst]
    split
    · next hl =>
      have hmem : bindingVal s "sitio" ∈ m.map Prod.fst := (lookup_isSome_iff _ _).mp hl
      constructor
      · exact Or.inl
      · rintro (hk | ⟨hne, hk⟩)
        · exact hk
        · exact hk ▸ hmem
    · constructor
      · intro hk
        rcases List.mem_append.mp hk with hk | hk
        · exact Or.inl hk
        · have hk := List.mem_singleton.mp hk
          exact Or.inr ⟨hk ▸ h, hk⟩
      · rintro (hk | ⟨hne, hk⟩)
        · exact List.mem_append.mpr (Or.inl hk)
        · exact List.mem_append.mpr (Or.inr (List.mem_singleton.mpr hk))

theorem mergePrimaryStep_nodup {m : List (String × MergedSite)} {s : Binding}
    (hm : (m.map Prod.fst).Nodup) : ((mergePrimaryStep m s).map Prod.fst).Nodup := by
  unfold mergePrimaryStep
  by_cases h : bindingVal s "sitio" = ""
  · rwa [if_pos h]
  · rw [if_neg h, dictSet_map_fst]
    split
    · exact hm
    · next hl =>
      have hnot : bindingVal s "sitio" ∉ m.map Prod.fst := by
        intro hmem
        exact absurd ((lookup_isSome_iff _ _).mpr hmem) (by simpa using hl)
      simp [List.nodup_append, hm, hnot]

theorem mergePrimary_foldl_nodup (l : List Binding) :
    ∀ m : List (String × MergedSite), (m.map Prod.fst).Nodup →
      ((l.foldl mergePrimaryStep m).map Prod.fst).Nodup := by
  induction l with
  | nil => exact fun m hm => hm
  | cons s l ih => exact fun m hm => ih _ (mergePrimaryStep_nodup hm)

theorem mergePrimary_foldl_keys (l : List Binding) :
    ∀ (m : List (String × MergedSite)) (k : String),
      k ∈ (l.foldl mergePrimaryStep m).map Prod.fst ↔
        k ∈ m.map Prod.fst ∨ (k ≠ "" ∧ k ∈ l.map (fun s => bindingVal s "sitio")) := by
  induction l with
  | nil => simp
  | cons s l ih =>
    intro m k
    rw [List.foldl_cons, ih, mergePrimaryStep_keys]
    simp only [List.map_cons, List.mem_cons]
    constructor
    · rintro ((hk | ⟨hne, hk⟩) | ⟨hne, hk⟩)
      · exact Or.inl hk
      · exact Or.inr ⟨hne, Or.inl hk⟩
      · exact Or.inr ⟨hne, Or.inr hk⟩
    · rintro (hk | ⟨hne, hk | hk⟩)
      · exact Or.inl (Or.inl hk)
      · exact Or.inl (Or.inr ⟨hne, hk⟩)
      · exact Or.inr ⟨hne, hk⟩

theorem mergePrimary_foldl_values (l : List Binding) :
    ∀ (m : List (String × MergedSite)) (e : String × MergedSite),
      e ∈ l.foldl mergePrimaryStep m →
        e ∈ m ∨ (e.2.source = "wikidata_general" ∧ e.2.data ∈ l) := by
  induction l with
  | nil => exact fun m e he => Or.inl he
  | cons s l ih =>
    intro m e he
    rcases ih _ _ he with h1 | h2
    · unfold mergePrimaryStep at h1
      by_cases h : bindingVal s "sitio" = ""
      · rw [if_pos h] at h1
        exact Or.inl h1
      · rw [if_neg h] at h1
        rcases dictSet_mem h1 with h1 | h1
        · exact Or.inl h1
        · right
          rw [h1]
          exact ⟨rfl, List.mem_cons_self _ _⟩
    · exact Or.inr ⟨h2.1, List.mem_cons_of_mem _ h2.2⟩

theorem mergeEnrichOne_map_fst (sn : String) (m : List (String × MergedSite)) (s : Binding) :
    (mergeEnrichOne sn m s).map Prod.fst = m.map Prod.fst := by
  simp only [mergeEnrichOne]
  split
  · apply updateFirstBy_map
    intro a
    rfl
  · rfl

theorem mergeEnrichStep_map_fst (l : List Binding) (sn : String) :
    ∀ m, (mergeEnrichStep m l sn).map Prod.fst = m.map Prod.fst := by
  induction l with
  | nil => exact fun m => rfl
  | cons s l ih =>
    intro m
    show ((s :: l).foldl (mergeEnrichOne sn) m).map Prod.fst = m.map Prod.fst
    rw [List.foldl_cons]
    exact (ih (mergeEnrichOne sn m s)).trans (mergeEnrichOne_map_fst sn m s)

theorem mergeEnrichOne_values {sn : String} {m : List (String × MergedSite)} {s : Binding}
    {e : String × MergedSite} (he : e ∈ mergeEnrichOne sn m s) :
    ∃ e0 ∈ m, e.2.source = e0.2.source ∧ e.2.data = e0.2.data := by
  simp only [mergeEnrichOne] at he
  split at he
  · rcases updateFirstBy_mem he with h | ⟨y, hy, _, hxy⟩
    · exact ⟨e, h, rfl, rfl⟩
    · exact ⟨y, hy, by rw [hxy], by rw [hxy]⟩
  · exact ⟨e, he, rfl, rfl⟩

theorem mergeEnrichStep_values (l : List Binding) (sn : String) :
    ∀ (m : List (String × MergedSite)) (e : String × MergedSite),
      e ∈ mergeEnrichStep m l sn →
        ∃ e0 ∈ m, e.2.source = e0.2.source ∧ e.2.data = e0.2.data := by
  induction l with
  | nil => exact fun m e he => ⟨e, he, rfl, rfl⟩
  | cons s l ih =>
    intro m e he
    have he2 : e ∈ mergeEnrichStep (mergeEnrichOne sn m s) l sn := he
    rcases ih _ _ he2 with ⟨e1, he1, hs1, hd1⟩
    rcases mergeEnrichOne_values he1 with ⟨e0, he0, hs0, hd0⟩
    exact ⟨e0, he0, hs1.trans hs0, hd1.trans hd0⟩

/-! ## Claim theorems -/

/-- C2: in the heritage enrichment merge, every record of the merged output
originates from the primary (Wikidata general) list, and the merged output
length equals the number of distinct source keys carried by that primary
list (a primary row with an empty `sitio` value carries no source key and
is skipped by the source); a detail record from a secondary list whose key
is absent from the primary map therefore contributes nothing — never
primary plus orphans. -/
theorem claim2_enrichment_join (wg dbp un ar re : Option (List Binding)) :
    (merge_heritage_data wg dbp un ar re).length =
      (((wg.getD []).map (fun s => bindingVal s "sitio")).filter
        (fun k => k ≠ "")).dedup.length ∧
    ∀ ms ∈ merge_heritage_data wg dbp un ar re,
      ms.source = "wikidata_general" ∧ ms.data ∈ wg.getD [] := by
  have hdef : merge_heritage_data wg dbp un ar re =
      (mergeEnrichStep
        (mergeEnrichStep
          (mergeEnrichStep ((wg.getD []).foldl mergePrimaryStep []) (un.getD []) "unesco")
          (ar.getD []) "archaeological")
        (re.getD []) "religious").map Prod.snd := rfl
  constructor
  · rw [hdef, List.length_map]
    have hfst : (mergeEnrichStep
        (mergeEnrichStep
          (mergeEnrichStep ((wg.getD []).foldl mergePrimaryStep []) (un.getD []) "unesco")
          (ar.getD []) "archaeological")
        (re.getD []) "religious").map Prod.fst =
        ((wg.getD []).foldl mergePrimaryStep []).map Prod.fst := by
      rw [mergeEnrichStep_map_fst, mergeEnrichStep_map_fst, mergeEnrichStep_map_fst]
    have hlen := congrArg List.length hfst
    rw [List.length_map, List.length_map] at hlen
    rw [hlen, ← List.length_map (((wg.getD []).foldl mergePrimaryStep [])) Prod.fst]
    apply nodup_length_eq_dedup (mergePrimary_foldl_nodup _ [] (by simp))
    intro k
    rw [mergePrimary_foldl_keys]
    simp only [List.map_nil, List.not_mem_nil, false_or, List.mem_filter,
      decide_eq_true_eq]
    exact ⟨fun h => ⟨h.2, h.1⟩, fun h => ⟨h.2, h.1⟩⟩
  · intro ms hms
    rw [hdef] at hms
    rcases List.mem_map.mp hms with ⟨e, he, rfl⟩
    rcases mergeEnrichStep_values _ _ _ _ he with ⟨e1, he1, hs1, hd1⟩
    rcases mergeEnrichStep_values _ _ _ _ he1 with ⟨e2, he2, hs2, hd2⟩
    rcases mergeEnrichStep_values _ _ _ _ he2 with ⟨e3, he3, hs3, hd3⟩
    rcases mergePrimary_foldl_values _ _ _ he3 with h | ⟨hsrc, hdata⟩
    · exact absurd h (List.not_mem_nil e3)
    · exact ⟨by rw [hs1, hs2, hs3, hsrc], by rw [hd1, hd2, hd3]; exact hdata⟩

/-- Witness for C2: one primary row with key Q5 and one orphan UNESCO
detail row with key Q9 merge to a single output record originating from
the primary row. -/
theorem claim2_witness :
    (merge_heritage_data (some [[("sitio", "http://e/Q5")]]) none
        (some [[("sitio", "http://e/Q9")]]) none none).length = 1 ∧
    (⟨"wikidata_general", [("sitio", "http://e/Q5")], []⟩ : MergedSite).source =
        "wikidata_general" ∧
    (⟨"wikidata_general", [("sitio", "http://e/Q5")], []⟩ : MergedSite).data ∈
        (some [[("sitio", "http://e/Q5")]] : Option (List Binding)).getD [] := by
  refine ⟨by decide, ?_⟩
  exact (claim2_enrichment_join (some [[("sitio", "http://e/Q5")]]) none
    (some [[("sitio", "http://e/Q9")]]) none none).2 _ (by decide)

/-- C3: heritage category determination is a deterministic first-match-wins
case-insensitive substring test in the fixed source order; in particular a
type label containing both `museo` and `histórico` but no higher-priority
keyword (UNESCO or world-heritage, archaeological, religious) resolves to
the museum group, checked before the historic group. -/
theorem claim3_category_priority (data : Binding)
    (hmuseo : pyContains (pyLower (bindingVal data "tipoLabel")) "museo" = true)
    (_hhist : pyContains (pyLower (bindingVal data "tipoLabel")) "histórico" = true)
    (h1 : pyContains (pyLower (bindingVal data "tipoLabel")) "unesco" = false)
    (h2 : pyContains (pyLower (bindingVal data "tipoLabel")) "patrimonio mundial" = false)
    (h3 : pyContains (pyLower (bindingVal data "tipoLabel")) "arqueológ" = false)
    (h4 : pyContains (pyLower (bindingVal data "tipoLabel")) "arqueolog" = false)
    (h5 : pyContains (pyLower (bindingVal data "tipoLabel")) "iglesia" = false)
    (h6 : pyContains (pyLower (bindingVal data "tipoLabel")) "catedral" = false)
    (h7 : pyContains (pyLower (bindingVal data "tipoLabel")) "religios" = false) :
    determine_category data = "Museo" := by
  simp [determine_category, hmuseo, h1, h2, h3, h4, h5, h6, h7]

/-- Witness for C3 at the label `Museo Histórico`. -/
theorem claim3_witness :
    pyContains (pyLower (bindingVal [("tipoLabel", "Museo Histórico")] "tipoLabel"))
        "museo" = true ∧
    pyContains (pyLower (bindingVal [("tipoLabel", "Museo Histórico")] "tipoLabel"))
        "histórico" = true ∧
    determine_category [("tipoLabel", "Museo Histórico")] = "Museo" :=
  ⟨by decide, by decide,
   claim3_category_priority [("tipoLabel", "Museo Histórico")] (by decide) (by decide)
     (by decide) (by decide) (by decide) (by decide) (by decide) (by decide) (by decide)⟩

/-- C9 counterexample: the heritage date parser returns the raw string
`garbage` — a non-date — instead of `Unknown`, refuting the claim that any
parse error yields `Unknown` and a raw non-date string is never returned. -/
theorem claim9_counterexample :
    parse_date_enhanced "garbage" = some "garbage" ∧
    parse_date_enhanced "abcdefghijklmn" = some "abcdefghij" := by
  constructor <;> decide

/-- C9 (amended): the heritage date parser is total and returns `Unknown`
exactly on the empty string; for every other input it truncates without
validation — the prefix before the first `T` when one is present, else the
first ten characters, else the whole raw string. -/
theorem claim9_amended_date (s : String) :
    (parse_date_enhanced s = none ↔ s = "") ∧
    (s ≠ "" → pyContains s "T" = true →
      parse_date_enhanced s = some (firstSegmentOn s "T")) ∧
    (s ≠ "" → pyContains s "T" = false → 10 ≤ s.length →
      parse_date_enhanced s = some (s.take 10)) ∧
    (s ≠ "" → pyContains s "T" = false → s.length < 10 →
      parse_date_enhanced s = some s) := by
  unfold parse_date_enhanced
  by_cases h : s = ""
  · simp [h]
  · refine ⟨?_, ?_, ?_, ?_⟩
    · rw [if_neg h]
      constructor
      · intro hcon
        split at hcon
        · exact absurd hcon (by simp)
        · split at hcon <;> exact absurd hcon (by simp)
      · intro hcon
        exact absurd hcon h
    · intro _ hT
      simp [h, hT]
    · intro _ hT hlen
      simp [h, hT, hlen]
    · intro _ hT hlen
      have : ¬ 10 ≤ s.length := by omega
      simp [h, hT, this]

/-- Witness for C9 at a date-time string and a short raw string. -/
theorem claim9_witness :
    ("2024-01-15T08:00" ≠ "" ∧ pyContains "2024-01-15T08:00" "T" = true ∧
      parse_date_enhanced "2024-01-15T08:00" = some "2024-01-15") ∧
    ("garbage" ≠ "" ∧ pyContains "garbage" "T" = false ∧ "garbage".length < 10 ∧
      parse_date_enhanced "garbage" = some "garbage") := by
  refine ⟨⟨by decide, by decide, ?_⟩,
    ⟨by decide, by decide, by decide,
     (claim9_amended_date "garbage").2.2.2 (by decide) (by decide) (by decide)⟩⟩
  have h := (claim9_amended_date "2024-01-15T08:00").2.1 (by decide) (by decide)
  rw [(by decide : firstSegmentOn "2024-01-15T08:00" "T" = "2024-01-15")] at h
  exact h

/-- C4: for each of the four entity types the staleness check returns true
exactly when the store has zero rows for that type, or no last-sync
timestamp is recorded, or the elapsed time since the recorded timestamp
strictly exceeds the configured interval (Django default 21600 seconds).
The check is a pure function of store and cache — it performs no writes —
and with an empty park store it returns true regardless of any recorded
timestamp. -/
theorem should_sync_char (db : Db) (cache : Cache) (now interval : ℚ) (t : String) :
    should_sync db cache now interval t = true ↔
      is_database_empty db t = true ∨ cache ("last_sync_" ++ t) = none ∨
        ∃ last, cache ("last_sync_" ++ t) = some last ∧ now - last > interval := by
  unfold should_sync
  by_cases hb : is_database_empty db t = true
  · simp [hb]
  · cases hc : cache ("last_sync_" ++ t) with
    | none => simp [hb, hc]
    | some last => simp [hb, hc]

theorem claim4_staleness (db : Db) (cache : Cache) (now interval : ℚ) (t : String)
    (ht : t = "provincias" ∨ t = "parques" ∨ t = "sitios" ∨ t = "plazas") :
    (should_sync db cache now interval t = true ↔
      typeRowCount db t = 0 ∨ cache ("last_sync_" ++ t) = none ∨
        ∃ last, cache ("last_sync_" ++ t) = some last ∧ now - last > interval) ∧
    (db.parques = [] → should_sync db cache now interval "parques" = true) := by
  constructor
  · rcases ht with rfl | rfl | rfl | rfl
    · rw [should_sync_char, show is_database_empty db "provincias" = db.provincias.isEmpty from rfl,
        show typeRowCount db "provincias" = db.provincias.length from rfl]
      simp [List.isEmpty_iff_length_eq_zero]
    · rw [should_sync_char, show is_database_empty db "parques" = db.parques.isEmpty from rfl,
        show typeRowCount db "parques" = db.parques.length from rfl]
      simp [List.isEmpty_iff_length_eq_zero]
    · rw [should_sync_char, show is_database_empty db "sitios" = db.sitios.isEmpty from rfl,
        show typeRowCount db "sitios" = db.sitios.length from rfl]
      simp [List.isEmpty_iff_length_eq_zero]
    · rw [should_sync_char, show is_database_empty db "plazas" = db.plazas.isEmpty from rfl,
        show typeRowCount db "plazas" = db.plazas.length from rfl]
      simp [List.isEmpty_iff_length_eq_zero]
  · intro h
    rw [should_sync_char, show is_database_empty db "parques" = db.parques.isEmpty from rfl, h]
    simp

/-- Witness for C4 at the concrete scenario of the claim: an empty store
for type `parques`. -/
theorem claim4_witness :
    (should_sync Db.empty Cache.empty 0 21600 "parques" = true ↔
      typeRowCount Db.empty "parques" = 0 ∨
        Cache.empty ("last_sync_" ++ "parques") = none ∨
        ∃ last, Cache.empty ("last_sync_" ++ "parques") = some last ∧
          (0 : ℚ) - last > 21600) ∧
    should_sync Db.empty Cache.empty 0 21600 "parques" = true :=
  ⟨(claim4_staleness Db.empty Cache.empty 0 21600 "parques" (Or.inr (Or.inl rfl))).1,
   (claim4_staleness Db.empty Cache.empty 0 21600 "parques" (Or.inr (Or.inl rfl))).2 rfl⟩

theorem parse_coordinates_agree (t : String) :
    parse_coordinates_enhanced t = parse_coordinates_optimized t := rfl

/-- C5 counterexample: `float("nan")` succeeds in Python, so the token
`nan` is accepted by the coordinate parsers although it is not a finite
float, and `Point(nan 1)` yields a populated pair instead of the `Unknown`
the claim requires for every string other than a well-formed finite-float
point. -/
theorem claim5_counterexample :
    pyFloatOfString "nan" = some PyFloat.nan ∧
    parse_coordinates_optimized "Point(nan 1)" = some (PyFloat.finite 1, PyFloat.nan) ∧
    parse_coordinates_enhanced "Point(nan 1)" = some (PyFloat.finite 1, PyFloat.nan) := by
  refine ⟨by decide, by decide, by decide⟩

/-- C5 (amended): both coordinate parsers are total (`None` replaces any
exception) and, for every string containing `Point(` whose stripped token
list is exactly two tokens accepted by the Python float constructor
(finite or not), return latitude from the second token and longitude from
the first, never swapped; on every other input — missing `Point(` wrapper,
wrong token count, or a token `float` rejects — they return `Unknown`. -/
theorem claim5_amended_coordinates (s : String) :
    (∀ a b x y, pointTokens s = [a, b] → pyFloatOfString a = some x →
        pyFloatOfString b = some y → pyContains s "Point(" = true →
        parse_coordinates_optimized s = some (y, x) ∧
        parse_coordinates_enhanced s = some (y, x)) ∧
    (pyContains s "Point(" = false →
        parse_coordinates_optimized s = none ∧ parse_coordinates_enhanced s = none) ∧
    (∀ a b, pointTokens s = [a, b] →
        pyFloatOfString a = none ∨ pyFloatOfString b = none →
        parse_coordinates_optimized s = none ∧ parse_coordinates_enhanced s = none) ∧
    ((pointTokens s).length ≠ 2 →
        parse_coordinates_optimized s = none ∧ parse_coordinates_enhanced s = none) := by
  refine ⟨?_, ?_, ?_, ?_⟩
  · intro a b x y ht ha hb hc
    have h : parse_coordinates_optimized s = some (y, x) := by
      unfold parse_coordinates_optimized
      rw [if_neg (by simp [hc])]
      simp [ht, ha, hb]
    exact ⟨h, (parse_coordinates_agree s).trans h⟩
  · intro hc
    have h : parse_coordinates_optimized s = none := by
      unfold parse_coordinates_optimized
      rw [if_pos (by simp [hc])]
    exact ⟨h, (parse_coordinates_agree s).trans h⟩
  · intro a b ht hab
    have h : parse_coordinates_optimized s = none := by
      unfold parse_coordinates_optimized
      split
      · rfl
      · rcases hab with ha | hb
        · cases hfb : pyFloatOfString b <;> simp [ht, ha, hfb]
        · simp [ht, hb]
    exact ⟨h, (parse_coordinates_agree s).trans h⟩
  · intro hlen
    have h : parse_coordinates_optimized s = none := by
      unfold parse_coordinates_optimized
      split
      · rfl
      · rcases hl : pointTokens s with _ | ⟨a, _ | ⟨b, _ | ⟨c, rest⟩⟩⟩
        · simp [hl]
        · simp [hl]
        · exact absurd (congrArg List.length hl) hlen
        · simp [hl]
    exact ⟨h, (parse_coordinates_agree s).trans h⟩

/-- Witness for C5 at a well-formed point string and two malformed ones. -/
theorem claim5_witness :
    (pointTokens "Point(-78.5 -0.25)" = ["-78.5", "-0.25"] ∧
      pyFloatOfString "-78.5" = some (PyFloat.finite (mkRat (-157) 2)) ∧
      pyFloatOfString "-0.25" = some (PyFloat.finite (mkRat (-1) 4)) ∧
      pyContains "Point(-78.5 -0.25)" "Point(" = true ∧
      parse_coordinates_optimized "Point(-78.5 -0.25)" =
        some (PyFloat.finite (mkRat (-1) 4), PyFloat.finite (mkRat (-157) 2)) ∧
      parse_coordinates_enhanced "Point(-78.5 -0.25)" =
        some (PyFloat.finite (mkRat (-1) 4), PyFloat.finite (mkRat (-157) 2))) ∧
    (pyContains "no wrapper" "Point(" = false ∧
      parse_coordinates_optimized "no wrapper" = none) ∧
    (pointTokens "Point(a 2)" = ["a", "2"] ∧ pyFloatOfString "a" = none ∧
      parse_coordinates_optimized "Point(a 2)" = none) := by
  refine ⟨⟨by decide, by decide, by decide, by decide, ?_, ?_⟩,
    ⟨by decide, ?_⟩, ⟨by decide, by decide, ?_⟩⟩
  · exact ((claim5_amended_coordinates "Point(-78.5 -0.25)").1 "-78.5" "-0.25" _ _
      (by decide) (by decide) (by decide) (by decide)).1
  · exact ((claim5_amended_coordinates "Point(-78.5 -0.25)").1 "-78.5" "-0.25" _ _
      (by decide) (by decide) (by decide) (by decide)).2
  · exact ((claim5_amended_coordinates "no wrapper").2.1 (by decide)).1
  · exact ((claim5_amended_coordinates "Point(a 2)").2.2.1 "a" "2" (by decide)
      (Or.inl (by decide))).1

theorem cleanParques_mem (l : List ParqueNacional) (r : ParqueNacional) :
    r ∈ (cleanParques l).1 ↔ r ∈ l ∧ ¬(r.nombre = none) ∧ ¬(r.nombre = some "") ∧
      latOut r.latitud = false ∧ lonOut r.longitud = false := by
  simp only [cleanParques, deleteWhere, List.mem_filter, latOut, lonOut,
    Bool.or_eq_false_iff, Bool.not_eq_true', decide_eq_false_iff_not]
  tauto

theorem cleanSitios_mem (l : List SitioPatrimonial) (r : SitioPatrimonial) :
    r ∈ (cleanSitios l).1 ↔ r ∈ l ∧ ¬(r.nombre = none) ∧ ¬(r.nombre = some "") ∧
      latOut r.latitud = false ∧ lonOut r.longitud = false := by
  simp only [cleanSitios, deleteWhere, List.mem_filter, latOut, lonOut,
    Bool.or_eq_false_iff, Bool.not_eq_true', decide_eq_false_iff_not]
  tauto

theorem cleanPlazas_mem (l : List Plaza) (r : Plaza) :
    r ∈ (cleanPlazas l).1 ↔ r ∈ l ∧ ¬(r.nombre = none) ∧ ¬(r.nombre = some "") ∧
      latOut r.latitud = false ∧ lonOut r.longitud = false := by
  simp only [cleanPlazas, deleteWhere, List.mem_filter, latOut, lonOut,
    Bool.or_eq_false_iff, Bool.not_eq_true', decide_eq_false_iff_not]
  tauto

theorem cleanProvincias_len (l : List Provincia) :
    (cleanProvincias l).1.length + (cleanProvincias l).2 = l.length := by
  have e1 := deleteWhere_length (fun r : Provincia => r.nombre = none) l
  have e2 := deleteWhere_length (fun r : Provincia => r.nombre = some "")
    (deleteWhere (fun r : Provincia => r.nombre = none) l).1
  have e3 := deleteWhere_length (fun r : Provincia => ¬ r.wikidata_id ∈ ecuador_provinces)
    (deleteWhere (fun r : Provincia => r.nombre = some "")
      (deleteWhere (fun r : Provincia => r.nombre = none) l).1).1
  simp only [cleanProvincias, deleteWhere] at *
  omega

theorem cleanParques_len (l : List ParqueNacional) :
    (cleanParques l).1.length + (cleanParques l).2 = l.length := by
  have e1 := deleteWhere_length (fun r : ParqueNacional => r.nombre = none) l
  have e2 := deleteWhere_length (fun r : ParqueNacional => r.nombre = some "")
    (deleteWhere (fun r : ParqueNacional => r.nombre = none) l).1
  have e3 := deleteWhere_length
    (fun r : ParqueNacional => (r.latitud.map (fun v => v.ltQ (-5))).getD false)
    (deleteWhere (fun r : ParqueNacional => r.nombre = some "")
      (deleteWhere (fun r : ParqueNacional => r.nombre = none) l).1).1
  have e4 := deleteWhere_length
    (fun r : ParqueNacional => (r.latitud.map (fun v => v.gtQ 2)).getD false)
    (deleteWhere (fun r : ParqueNacional => (r.latitud.map (fun v => v.ltQ (-5))).getD false)
      (deleteWhere (fun r : ParqueNacional => r.nombre = some "")
        (deleteWhere (fun r : ParqueNacional => r.nombre = none) l).1).1).1
  have e5 := deleteWhere_length
    (fun r : ParqueNacional => (r.longitud.map (fun v => v.ltQ (-92))).getD false)
    (deleteWhere (fun r : ParqueNacional => (r.latitud.map (fun v => v.gtQ 2)).getD false)
      (deleteWhere (fun r : ParqueNacional => (r.latitud.map (fun v => v.ltQ (-5))).getD false)
        (deleteWhere (fun r : ParqueNacional => r.nombre = some "")
          (deleteWhere (fun r : ParqueNacional => r.nombre = none) l).1).1).1).1
  have e6 := deleteWhere_length
    (fun r : ParqueNacional => (r.longitud.map (fun v => v.gtQ (-75))).getD false)
    (deleteWhere (fun r : ParqueNacional => (r.longitud.map (fun v => v.ltQ (-92))).getD false)
      (deleteWhere (fun r : ParqueNacional => (r.latitud.map (fun v => v.gtQ 2)).getD false)
        (deleteWhere (fun r : ParqueNacional => (r.latitud.map (fun v => v.ltQ (-5))).getD false)
          (deleteWhere (fun r : ParqueNacional => r.nombre = some "")
            (deleteWhere (fun r : ParqueNacional => r.nombre = none) l).1).1).1).1).1
  simp only [cleanParques, deleteWhere] at *
  omega

theorem cleanSitios_len (l : List SitioPatrimonial) :
    (cleanSitios l).1.length + (cleanSitios l).2 = l.length := by
  have e1 := deleteWhere_length (fun r : SitioPatrimonial => r.nombre = none) l
  have e2 := deleteWhere_length (fun r : SitioPatrimonial => r.nombre = some "")
    (deleteWhere (fun r : SitioPatrimonial => r.nombre = none) l).1
  have e3 := deleteWhere_length
    (fun r : SitioPatrimonial => (r.latitud.map (fun v => v.ltQ (-5))).getD false)
    (deleteWhere (fun r : SitioPatrimonial => r.nombre = some "")
      (deleteWhere (fun r : SitioPatrimonial => r.nombre = none) l).1).1
  have e4 := deleteWhere_length
    (fun r : SitioPatrimonial => (r.latitud.map (fun v => v.gtQ 2)).getD false)
    (deleteWhere (fun r : SitioPatrimonial => (r.latitud.map (fun v => v.ltQ (-5))).getD false)
      (deleteWhere (fun r : SitioPatrimonial => r.nombre = some "")
        (deleteWhere (fun r : SitioPatrimonial => r.nombre = none) l).1).1).1
  have e5 := deleteWhere_length
    (fun r : SitioPatrimonial => (r.longitud.map (fun v => v.ltQ (-92))).getD false)
    (deleteWhere (fun r : SitioPatrimonial => (r.latitud.map (fun v => v.gtQ 2)).getD false)
      (deleteWhere (fun r : SitioPatrimonial => (r.latitud.map (fun v => v.ltQ (-5))).getD false)
        (deleteWhere (fun r : SitioPatrimonial => r.nombre = some "")
          (deleteWhere (fun r : SitioPatrimonial => r.nombre = none) l).1).1).1).1
  have e6 := deleteWhere_length
    (fun r : SitioPatrimonial => (r.longitud.map (fun v => v.gtQ (-75))).getD false)
    (deleteWhere (fun r : SitioPatrimonial => (r.longitud.map (fun v => v.ltQ (-92))).getD false)
      (deleteWhere (fun r : SitioPatrimonial => (r.latitud.map (fun v => v.gtQ 2)).getD false)
        (deleteWhere (fun r : SitioPatrimonial => (r.latitud.map (fun v => v.ltQ (-5))).getD false)
          (deleteWhere (fun r : SitioPatrimonial => r.nombre = some "")
            (deleteWhere (fun r : SitioPatrimonial => r.nombre = none) l).1).1).1).1).1
  simp only [cleanSitios, deleteWhere] at *
  omega

theorem cleanPlazas_len (l : List Plaza) :
    (cleanPlazas l).1.length + (cleanPlazas l).2 = l.length := by
  have e1 := deleteWhere_length (fun r : Plaza => r.nombre = none) l
  have e2 := deleteWhere_length (fun r : Plaza => r.nombre = some "")
    (deleteWhere (fun r : Plaza => r.nombre = none) l).1
  have e3 := deleteWhere_length
    (fun r : Plaza => (r.latitud.map (fun v => v.ltQ (-5))).getD false)
    (deleteWhere (fun r : Plaza => r.nombre = some "")
      (deleteWhere (fun r : Plaza => r.nombre = none) l).1).1
  have e4 := deleteWhere_length
    (fun r : Plaza => (r.latitud.map (fun v => v.gtQ 2)).getD false)
    (deleteWhere (fun r : Plaza => (r.latitud.map (fun v => v.ltQ (-5))).getD false)
      (deleteWhere (fun r : Plaza => r.nombre = some "")
        (deleteWhere (fun r : Plaza => r.nombre = none) l).1).1).1
  have e5 := deleteWhere_length
    (fun r : Plaza => (r.longitud.map (fun v => v.ltQ (-92))).getD false)
    (deleteWhere (fun r : Plaza => (r.latitud.map (fun v => v.gtQ 2)).getD false)
      (deleteWhere (fun r : Plaza => (r.latitud.map (fun v => v.ltQ (-5))).getD false)
        (deleteWhere (fun r : Plaza => r.nombre = some "")
          (deleteWhere (fun r : Plaza => r.nombre = none) l).1).1).1).1
  have e6 := deleteWhere_length
    (fun r : Plaza => (r.longitud.map (fun v => v.gtQ (-75))).getD false)
    (deleteWhere (fun r : Plaza => (r.longitud.map (fun v => v.ltQ (-92))).getD false)
      (deleteWhere (fun r : Plaza => (r.latitud.map (fun v => v.gtQ 2)).getD false)
        (deleteWhere (fun r : Plaza => (r.latitud.map (fun v => v.ltQ (-5))).getD false)
          (deleteWhere (fun r : Plaza => r.nombre = some "")
            (deleteWhere (fun r : Plaza => r.nombre = none) l).1).1).1).1).1
  simp only [cleanPlazas, deleteWhere] at *
  omega

/-- C7: after the cleanup pass no surviving park, heritage-site or plaza
record has a latitude outside `[-5, 2]` or a longitude outside
`[-92, -75]` (outside in the sense of the float comparisons the code runs,
under which an absent coordinate never matches a range filter and is
kept); every removed park, site or plaza was out of range or had a
null/empty name; and the reported total is the exact number of rows the
pass removed, i.e. reported + surviving = initial. -/
theorem claim7_cleanup (db : Db) :
    (∀ r ∈ (clean_irrelevant_data db).1.parques,
      latOut r.latitud = false ∧ lonOut r.longitud = false) ∧
    (∀ r ∈ (clean_irrelevant_data db).1.sitios,
      latOut r.latitud = false ∧ lonOut r.longitud = false) ∧
    (∀ r ∈ (clean_irrelevant_data db).1.plazas,
      latOut r.latitud = false ∧ lonOut r.longitud = false) ∧
    (∀ r ∈ db.parques, r ∉ (clean_irrelevant_data db).1.parques →
      latOut r.latitud = true ∨ lonOut r.longitud = true ∨
        r.nombre = none ∨ r.nombre = some "") ∧
    (∀ r ∈ db.sitios, r ∉ (clean_irrelevant_data db).1.sitios →
      latOut r.latitud = true ∨ lonOut r.longitud = true ∨
        r.nombre = none ∨ r.nombre = some "") ∧
    (∀ r ∈ db.plazas, r ∉ (clean_irrelevant_data db).1.plazas →
      latOut r.latitud = true ∨ lonOut r.longitud = true ∨
        r.nombre = none ∨ r.nombre = some "") ∧
    ((clean_irrelevant_data db).2 +
      ((clean_irrelevant_data db).1.provincias.length +
       (clean_irrelevant_data db).1.parques.length +
       (clean_irrelevant_data db).1.sitios.length +
       (clean_irrelevant_data db).1.plazas.length) =
      db.provincias.length + db.parques.length + db.sitios.length + db.plazas.length) := by
  have hshape1 : (clean_irrelevant_data db).1.parques = (cleanParques db.parques).1 := rfl
  have hshape2 : (clean_irrelevant_data db).1.sitios = (cleanSitios db.sitios).1 := rfl
  have hshape3 : (clean_irrelevant_data db).1.plazas = (cleanPlazas db.plazas).1 := rfl
  have hshape0 : (clean_irrelevant_data db).1.provincias = (cleanProvincias db.provincias).1 := rfl
  have hcount : (clean_irrelevant_data db).2 =
      (cleanProvincias db.provincias).2 + (cleanParques db.parques).2 +
        (cleanSitios db.sitios).2 + (cleanPlazas db.plazas).2 := rfl
  refine ⟨?_, ?_, ?_, ?_, ?_, ?_, ?_⟩
  · intro r hr
    rw [hshape1] at hr
    exact ⟨((cleanParques_mem _ _).mp hr).2.2.2.1, ((cleanParques_mem _ _).mp hr).2.2.2.2⟩
  · intro r hr
    rw [hshape2] at hr
    exact ⟨((cleanSitios_mem _ _).mp hr).2.2.2.1, ((cleanSitios_mem _ _).mp hr).2.2.2.2⟩
  · intro r hr
    rw [hshape3] at hr
    exact ⟨((cleanPlazas_mem _ _).mp hr).2.2.2.1, ((cleanPlazas_mem _ _).mp hr).2.2.2.2⟩
  · intro r hrl hrn
    rw [hshape1] at hrn
    by_cases hA : latOut r.latitud = true
    · exact Or.inl hA
    by_cases hB : lonOut r.longitud = true
    · exact Or.inr (Or.inl hB)
    by_cases hC : r.nombre = none
    · exact Or.inr (Or.inr (Or.inl hC))
    by_cases hD : r.nombre = some ""
    · exact Or.inr (Or.inr (Or.inr hD))
    exact absurd ((cleanParques_mem _ _).mpr
      ⟨hrl, hC, hD, Bool.not_eq_true _ ▸ hA, Bool.not_eq_true _ ▸ hB⟩) hrn
  · intro r hrl hrn
    rw [hshape2] at hrn
    by_cases hA : latOut r.latitud = true
    · exact Or.inl hA
    by_cases hB : lonOut r.longitud = true
    · exact Or.inr (Or.inl hB)
    by_cases hC : r.nombre = none
    · exact Or.inr (Or.inr (Or.inl hC))
    by_cases hD : r.nombre = some ""
    · exact Or.inr (Or.inr (Or.inr hD))
    exact absurd ((cleanSitios_mem _ _).mpr
      ⟨hrl, hC, hD, Bool.not_eq_true _ ▸ hA, Bool.not_eq_true _ ▸ hB⟩) hrn
  · intro r hrl hrn
    rw [hshape3] at hrn
    by_cases hA : latOut r.latitud = true
    · exact Or.inl hA
    by_cases hB : lonOut r.longitud = true
    · exact Or.inr (Or.inl hB)
    by_cases hC : r.nombre = none
    · exact Or.inr (Or.inr (Or.inl hC))
    by_cases hD : r.nombre = some ""
    · exact Or.inr (Or.inr (Or.inr hD))
    exact absurd ((cleanPlazas_mem _ _).mpr
      ⟨hrl, hC, hD, Bool.not_eq_true _ ▸ hA, Bool.not_eq_true _ ▸ hB⟩) hrn
  · rw [hshape0, hshape1, hshape2, hshape3, hcount]
    have h1 := cleanProvincias_len db.provincias
    have h2 := cleanParques_len db.parques
    have h3 := cleanSitios_len db.sitios
    have h4 := cleanPlazas_len db.plazas
    omega

/-- Witness for C7: a store with one out-of-range park (removed), one
park without coordinates (kept), and one empty-named plaza (removed, with
the exact count reported). -/
theorem claim7_witness :
    (∀ r ∈ (clean_irrelevant_data
        ⟨[], [⟨some "Lejos", "", none, none, some (PyFloat.finite (mkRat (-7) 1)), none, "", "Q1"⟩,
              ⟨some "SinCoords", "", none, none, none, none, "", "Q2"⟩], [],
          [⟨some "", "c", "", none, none, "", "Q3"⟩]⟩).1.parques,
      latOut r.latitud = false ∧ lonOut r.longitud = false) ∧
    (⟨some "Lejos", "", none, none, some (PyFloat.finite (mkRat (-7) 1)), none, "", "Q1"⟩ :
        ParqueNacional) ∈
      ([⟨some "Lejos", "", none, none, some (PyFloat.finite (mkRat (-7) 1)), none, "", "Q1"⟩,
        ⟨some "SinCoords", "", none, none, none, none, "", "Q2"⟩] : List ParqueNacional) ∧
    (latOut (some (PyFloat.finite (mkRat (-7) 1))) = true ∨
      lonOut (none : Option PyFloat) = true ∨
      (some "Lejos" : Option String) = none ∨ (some "Lejos" : Option String) = some "") ∧
    (clean_irrelevant_data
        ⟨[], [⟨some "Lejos", "", none, none, some (PyFloat.finite (mkRat (-7) 1)), none, "", "Q1"⟩,
              ⟨some "SinCoords", "", none, none, none, none, "", "Q2"⟩], [],
          [⟨some "", "c", "", none, none, "", "Q3"⟩]⟩).2 = 2 := by
  refine ⟨(claim7_cleanup _).1, by decide, ?_, by decide⟩
  exact (claim7_cleanup
      ⟨[], [⟨some "Lejos", "", none, none, some (PyFloat.finite (mkRat (-7) 1)), none, "", "Q1"⟩,
            ⟨some "SinCoords", "", none, none, none, none, "", "Q2"⟩], [],
        [⟨some "", "c", "", none, none, "", "Q3"⟩]⟩).2.2.2.1
    ⟨some "Lejos", "", none, none, some (PyFloat.finite (mkRat (-7) 1)), none, "", "Q1"⟩
    (by decide) (by decide)

/-- C6 counterexample: for the heritage-site type, a sync whose primary
query returns no data reports no error at all and still records the
last-successful-sync timestamp, contradicting the claim that every type
aborts with a non-empty error list and no timestamp. -/
theorem claim6_counterexample :
    (sync_sitios_patrimoniales_enhanced Db.empty Cache.empty 0 21600
        none none none none none).2.2.errors = [] ∧
    (sync_sitios_patrimoniales_enhanced Db.empty Cache.empty 0 21600
        none none none none none).2.1 "last_sync_sitios" = some 0 := by
  constructor
  · rfl
  · decide

/-- C6 (amended): for the province, park and plaza types a due sync whose
primary query returns no data (failure or empty result) returns
created = 0, updated = 0 with a non-empty error list, performs no store
writes and records no timestamp — the store and cache are returned
untouched; the heritage-site sync has no such guard: with no primary data
it performs no writes but reports no error and still records its
last-successful-sync timestamp. -/
theorem claim6_no_primary_data (db : Db) (cache : Cache) (now interval : ℚ)
    (r banderas : Option (List Binding)) (cantones : Option (List (String × List Binding)))
    (hq : r = none ∨ r = some []) :
    (should_sync db cache now interval "provincias" = true →
      sync_provincias_concurrent db cache now interval r banderas cantones =
        (db, cache, ⟨0, 0, ["No se pudieron obtener datos de Wikidata"]⟩)) ∧
    (should_sync db cache now interval "parques" = true →
      sync_parques_nacionales db cache now interval r =
        (db, cache, ⟨0, 0, ["No se pudieron obtener datos de parques desde Wikidata"]⟩)) ∧
    (should_sync db cache now interval "plazas" = true →
      sync_plazas_optimized db cache now interval r =
        (db, cache, ⟨0, 0, ["No se pudieron obtener datos de plazas desde Wikidata"]⟩)) ∧
    (should_sync db cache now interval "sitios" = true →
      sync_sitios_patrimoniales_enhanced db cache now interval r r r r r =
        (db, mark_synced cache now "sitios", ⟨0, 0, []⟩)) := by
  refine ⟨?_, ?_, ?_, ?_⟩ <;> intro hs
  · unfold sync_provincias_concurrent
    rw [if_neg (by simp [hs]), if_pos hq]
  · unfold sync_parques_nacionales
    rw [if_neg (by simp [hs]), if_pos hq]
  · unfold sync_plazas_optimized
    rw [if_neg (by simp [hs]), if_pos hq]
  · unfold sync_sitios_patrimoniales_enhanced
    rw [if_neg (by simp [hs])]
    rcases hq with rfl | rfl <;> rfl

/-- Witness for C6 on an empty store (all four types due) with failed
primary queries. -/
theorem claim6_witness :
    should_sync Db.empty Cache.empty 0 21600 "provincias" = true ∧
    should_sync Db.empty Cache.empty 0 21600 "parques" = true ∧
    should_sync Db.empty Cache.empty 0 21600 "plazas" = true ∧
    should_sync Db.empty Cache.empty 0 21600 "sitios" = true ∧
    sync_provincias_concurrent Db.empty Cache.empty 0 21600 none none none =
      (Db.empty, Cache.empty, ⟨0, 0, ["No se pudieron obtener datos de Wikidata"]⟩) ∧
    sync_parques_nacionales Db.empty Cache.empty 0 21600 none =
      (Db.empty, Cache.empty, ⟨0, 0, ["No se pudieron obtener datos de parques desde Wikidata"]⟩) ∧
    sync_plazas_optimized Db.empty Cache.empty 0 21600 none =
      (Db.empty, Cache.empty, ⟨0, 0, ["No se pudieron obtener datos de plazas desde Wikidata"]⟩) ∧
    sync_sitios_patrimoniales_enhanced Db.empty Cache.empty 0 21600 none none none none none =
      (Db.empty, mark_synced Cache.empty 0 "sitios", ⟨0, 0, []⟩) :=
  ⟨rfl, rfl, rfl, rfl,
   (claim6_no_primary_data Db.empty Cache.empty 0 21600 none none none (Or.inl rfl)).1 rfl,
   (claim6_no_primary_data Db.empty Cache.empty 0 21600 none none none (Or.inl rfl)).2.1 rfl,
   (claim6_no_primary_data Db.empty Cache.empty 0 21600 none none none (Or.inl rfl)).2.2.1 rfl,
   (claim6_no_primary_data Db.empty Cache.empty 0 21600 none none none (Or.inl rfl)).2.2.2 rfl⟩

theorem provinciaFromItem_nombre {item : Binding} {nombre bandera_url : String}
    {cantones : List Binding} {lat lon : Option PyFloat} {rec : Provincia}
    (h : provinciaFromItem item nombre bandera_url cantones lat lon = Except.ok rec) :
    rec.nombre = some nombre := by
  unfold provinciaFromItem at h
  cases hpi : parse_int (bindingVal item "poblacion") with
  | error e =>
    rw [hpi] at h
    exact absurd h (by simp [Bind.bind, Except.bind])
  | ok v =>
    rw [hpi] at h
    simp only [Bind.bind, Except.bind] at h
    cases h
    rfl

theorem provStep_mem (flags : List (String × String)) (cmap : List (String × List Binding))
    {store : List Provincia} {res : SyncResult} {item : Binding} {r : Provincia}
    (hr : r ∈ (provStep flags cmap (store, res) item).1) :
    r ∈ store ∨ ∃ s, r.nombre = some s ∧ s ≠ "" := by
  simp only [provStep] at hr
  split at hr
  · exact Or.inl hr
  · next hn =>
    split at hr
    · exact Or.inl hr
    · next newRec heq =>
      split at hr
      · rcases updateFirstBy_mem hr with h | ⟨y, hy, hp, rfl⟩
        · exact Or.inl h
        · refine Or.inr ⟨bindingVal item "provinciaLabel", ?_, hn⟩
          simpa using of_decide_eq_true hp
      · split at hr
        · exact Or.inl hr
        · rcases List.mem_append.mp hr with h | h
          · exact Or.inl h
          · have h := List.mem_singleton.mp h
            subst h
            exact Or.inr ⟨bindingVal item "provinciaLabel",
              provinciaFromItem_nombre heq, hn⟩

theorem parqueStep_mem {store : List ParqueNacional} {res : SyncResult} {item : Binding}
    {r : ParqueNacional} (hr : r ∈ (parqueStep (store, res) item).1) :
    r ∈ store ∨ ∃ s, r.nombre = some s ∧ s ≠ "" := by
  simp only [parqueStep] at hr
  split at hr
  · exact Or.inl hr
  · next hn =>
    split at hr
    · split at hr
      · exact Or.inl hr
      · rcases updateFirstBy_mem hr with h | ⟨y, hy, hp, rfl⟩
        · exact Or.inl h
        · exact Or.inr ⟨bindingVal item "parqueLabel", rfl, hn⟩
    · split at hr
      · exact Or.inl hr
      · rcases List.mem_append.mp hr with h | h
        · exact Or.inl h
        · have h := List.mem_singleton.mp h
          subst h
          exact Or.inr ⟨bindingVal item "parqueLabel", rfl, hn⟩

theorem plazaStep_mem {store : List Plaza} {res : SyncResult} {item : Binding}
    {r : Plaza} (hr : r ∈ (plazaStep (store, res) item).1) :
    r ∈ store ∨ ∃ s, r.nombre = some s ∧ s ≠ "" := by
  simp only [plazaStep] at hr
  split at hr
  · exact Or.inl hr
  · next hn =>
    split at hr
    · rcases updateFirstBy_mem hr with h | ⟨y, hy, hp, rfl⟩
      · exact Or.inl h
      · exact Or.inr ⟨bindingVal item "plazaLabel", rfl, hn⟩
    · exact Or.inl hr

theorem provFold_mem (flags : List (String × String)) (cmap : List (String × List Binding))
    (l : List Binding) :
    ∀ (acc : List Provincia × SyncResult) (r : Provincia),
      r ∈ (l.foldl (provStep flags cmap) acc).1 →
        r ∈ acc.1 ∨ ∃ s, r.nombre = some s ∧ s ≠ "" := by
  induction l with
  | nil => exact fun acc r hr => Or.inl hr
  | cons item l ih =>
    intro acc r hr
    rw [List.foldl_cons] at hr
    rcases ih _ _ hr with h | h
    · exact provStep_mem flags cmap h
    · exact Or.inr h

theorem parqueFold_mem (l : List Binding) :
    ∀ (acc : List ParqueNacional × SyncResult) (r : ParqueNacional),
      r ∈ (l.foldl parqueStep acc).1 → r ∈ acc.1 ∨ ∃ s, r.nombre = some s ∧ s ≠ "" := by
  induction l with
  | nil => exact fun acc r hr => Or.inl hr
  | cons item l ih =>
    intro acc r hr
    rw [List.foldl_cons] at hr
    rcases ih _ _ hr with h | h
    · exact parqueStep_mem h
    · exact Or.inr h

theorem plazaFold_mem (l : List Binding) :
    ∀ (acc : List Plaza × SyncResult) (r : Plaza),
      r ∈ (l.foldl plazaStep acc).1 → r ∈ acc.1 ∨ ∃ s, r.nombre = some s ∧ s ≠ "" := by
  induction l with
  | nil => exact fun acc r hr => Or.inl hr
  | cons item l ih =>
    intro acc r hr
    rw [List.foldl_cons] at hr
    rcases ih _ _ hr with h | h
    · exact plazaStep_mem h
    · exact Or.inr h

/-- C10: the province, park and plaza syncs never persist a record with an
empty name — every binding whose name label is missing or empty is skipped
before any store lookup or write, so every record present after a sync run
either was already in the store or carries a non-empty `nombre`. -/
theorem claim10_sync_nonempty_names (db : Db) (cache : Cache) (now interval : ℚ)
    (wres bres pres zres : Option (List Binding))
    (cres : Option (List (String × List Binding))) :
    (∀ r ∈ (sync_provincias_concurrent db cache now interval wres bres cres).1.provincias,
      r ∈ db.provincias ∨ ∃ s, r.nombre = some s ∧ s ≠ "") ∧
    (∀ r ∈ (sync_parques_nacionales db cache now interval pres).1.parques,
      r ∈ db.parques ∨ ∃ s, r.nombre = some s ∧ s ≠ "") ∧
    (∀ r ∈ (sync_plazas_optimized db cache now interval zres).1.plazas,
      r ∈ db.plazas ∨ ∃ s, r.nombre = some s ∧ s ≠ "") := by
  refine ⟨?_, ?_, ?_⟩
  · intro r hr
    unfold sync_provincias_concurrent at hr
    split at hr
    · exact Or.inl hr
    · split at hr
      · exact Or.inl hr
      · exact provFold_mem (process_banderas bres) (cres.getD []) (wres.getD [])
          (db.provincias, ⟨0, 0, []⟩) r hr
  · intro r hr
    unfold sync_parques_nacionales at hr
    split at hr
    · exact Or.inl hr
    · split at hr
      · exact Or.inl hr
      · exact parqueFold_mem (pres.getD []) (db.parques, ⟨0, 0, []⟩) r hr
  · intro r hr
    unfold sync_plazas_optimized at hr
    split at hr
    · exact Or.inl hr
    · split at hr
      · exact Or.inl hr
      · exact plazaFold_mem (zres.getD []) (db.plazas, ⟨0, 0, []⟩) r hr

/-- Witness for C10: a park surviving a failed sync run was already in the
store. -/
theorem claim10_witness :
    (⟨some "Cajas", "", none, none, none, none, "", "Q1"⟩ : ParqueNacional) ∈
        [(⟨some "Cajas", "", none, none, none, none, "", "Q1"⟩ : ParqueNacional)] ∨
      ∃ s, (⟨some "Cajas", "", none, none, none, none, "", "Q1"⟩ : ParqueNacional).nombre =
          some s ∧ s ≠ "" :=
  (claim10_sync_nonempty_names
      ⟨[], [⟨some "Cajas", "", none, none, none, none, "", "Q1"⟩], [], []⟩
      Cache.empty 0 21600 none none none none none).2.1
    ⟨some "Cajas", "", none, none, none, none, "", "Q1"⟩ (by decide)

/-- C1 counterexample: two province bindings sharing the display name
`Duplicada` but carrying the distinct source keys Q1 and Q2 are collapsed
by the province sync into a single record, which keeps the first key — the
upsert is keyed by `nombre`, not by `wikidata_id`. -/
theorem claim1_counterexample :
    ((sync_provincias_concurrent Db.empty Cache.empty 0 21600
        (some [[("provinciaLabel", "Duplicada"), ("provincia", "http://www.wikidata.org/entity/Q1")],
               [("provinciaLabel", "Duplicada"), ("provincia", "http://www.wikidata.org/entity/Q2")]])
        none none).1.provincias.map Provincia.wikidata_id) = ["Q1"] ∧
    (sync_provincias_concurrent Db.empty Cache.empty 0 21600
        (some [[("provinciaLabel", "Duplicada"), ("provincia", "http://www.wikidata.org/entity/Q1")],
               [("provinciaLabel", "Duplicada"), ("provincia", "http://www.wikidata.org/entity/Q2")]])
        none none).2.2 = ⟨1, 1, []⟩ := by
  constructor <;> decide

/-- C1 (amended): only the plaza and heritage-site upserts are keyed by the
stable source key; the province and park upserts are keyed by the display
name, and the unique constraint on `wikidata_id` makes their insert — and,
for parks, their update — fail when the incoming key already sits on
another record.  Concretely, for any store and binding with a non-empty
name label (and, for provinces, a population value that does not
overflow): a name-matching province binding overwrites in place and its
incoming source key is discarded; a non-matching one creates a record when
its key is absent from the store, and otherwise the `IntegrityError`
handler leaves the store unchanged and appends an error; a name-matching
park binding overwrites in place (rewriting the stored key) unless a
differently-named record already holds the incoming key, in which case
nothing is written and an error is appended; a non-matching park binding
creates when its key is absent from the store and otherwise errors with no
write; a plaza binding is looked up by `wikidata_id` — a key match
overwrites in place regardless of the name, and a key miss changes nothing
except an error entry, because the plaza create path always fails (the
defaults carry a `provincia` key the model lacks). -/
theorem claim1_amended_upsert_keys
    (storeP : List Provincia) (storeQ : List ParqueNacional) (storeZ : List Plaza)
    (flags : List (String × String)) (cmap : List (String × List Binding))
    (res : SyncResult) (item qitem zitem : Binding)
    (hn : bindingVal item "provinciaLabel" ≠ "")
    (hi : ∀ e, parse_int (bindingVal item "poblacion") ≠ Except.error e)
    (hq : bindingVal qitem "parqueLabel" ≠ "")
    (hz : bindingVal zitem "plazaLabel" ≠ "") :
    (storeP.any (fun r => r.nombre = some (bindingVal item "provinciaLabel")) = true →
      (provStep flags cmap (storeP, res) item).1.length = storeP.length ∧
      ∀ r ∈ (provStep flags cmap (storeP, res) item).1,
        r.wikidata_id ∈ storeP.map Provincia.wikidata_id) ∧
    (storeP.any (fun r => r.nombre = some (bindingVal item "provinciaLabel")) = false →
      storeP.any (fun r => r.wikidata_id = provinciaKeyOf item) = false →
      (provStep flags cmap (storeP, res) item).1.length = storeP.length + 1) ∧
    (storeP.any (fun r => r.nombre = some (bindingVal item "provinciaLabel")) = false →
      storeP.any (fun r => r.wikidata_id = provinciaKeyOf item) = true →
      (provStep flags cmap (storeP, res) item).1 = storeP ∧
      (provStep flags cmap (storeP, res) item).2.errors =
        res.errors ++ ["Error procesando provincia " ++ bindingVal item "provinciaLabel"]) ∧
    (storeQ.any (fun r => r.nombre = some (bindingVal qitem "parqueLabel")) = true →
      storeQ.any (fun r => ¬ r.nombre = some (bindingVal qitem "parqueLabel") ∧
          r.wikidata_id = parqueKeyOf qitem) = false →
      (parqueStep (storeQ, res) qitem).1.length = storeQ.length) ∧
    (storeQ.any (fun r => r.nombre = some (bindingVal qitem "parqueLabel")) = true →
      storeQ.any (fun r => ¬ r.nombre = some (bindingVal qitem "parqueLabel") ∧
          r.wikidata_id = parqueKeyOf qitem) = true →
      (parqueStep (storeQ, res) qitem).1 = storeQ ∧
      (parqueStep (storeQ, res) qitem).2.errors =
        res.errors ++ ["Error procesando parque " ++ bindingVal qitem "parqueLabel"]) ∧
    (storeQ.any (fun r => r.nombre = some (bindingVal qitem "parqueLabel")) = false →
      storeQ.any (fun r => r.wikidata_id = parqueKeyOf qitem) = false →
      (parqueStep (storeQ, res) qitem).1.length = storeQ.length + 1) ∧
    (storeQ.any (fun r => r.nombre = some (bindingVal qitem "parqueLabel")) = false →
      storeQ.any (fun r => r.wikidata_id = parqueKeyOf qitem) = true →
      (parqueStep (storeQ, res) qitem).1 = storeQ ∧
      (parqueStep (storeQ, res) qitem).2.errors =
        res.errors ++ ["Error procesando parque " ++ bindingVal qitem "parqueLabel"]) ∧
    (storeZ.any (fun r => plazaKeyOf zitem = some r.wikidata_id) = true →
      (plazaStep (storeZ, res) zitem).1.length = storeZ.length) ∧
    (storeZ.any (fun r => plazaKeyOf zitem = some r.wikidata_id) = false →
      (plazaStep (storeZ, res) zitem).1 = storeZ ∧
      (plazaStep (storeZ, res) zitem).2.errors =
        res.errors ++ ["Error procesando plaza " ++ bindingVal zitem "plazaLabel"]) := by
  obtain ⟨rec, hrec⟩ : ∃ rec, provinciaFromItem item (bindingVal item "provinciaLabel")
      (get_best_flag_url item flags (bindingVal item "provinciaLabel"))
      (get_cantones_for_provincia cmap (bindingVal item "provinciaLabel"))
      ((parse_coordinates_optimized (bindingVal item "coordenadas")).map Prod.fst)
      ((parse_coordinates_optimized (bindingVal item "coordenadas")).map Prod.snd) =
      Except.ok rec := by
    unfold provinciaFromItem
    cases hpi : parse_int (bindingVal item "poblacion") with
    | error e => exact absurd hpi (hi e)
    | ok v => exact ⟨_, rfl⟩
  have hstep : provStep flags cmap (storeP, res) item =
      if storeP.any (fun r => r.nombre = some (bindingVal item "provinciaLabel")) then
        (updateFirstBy (fun r => r.nombre = some (bindingVal item "provinciaLabel"))
          (fun old =>
            { old with
              capital := rec.capital
              poblacion := rec.poblacion
              area := rec.area
              latitud := rec.latitud
              longitud := rec.longitud
              imagen_url := rec.imagen_url
              bandera_url := rec.bandera_url
              cantones := rec.cantones })
          storeP,
         { res with updated := res.updated + 1 })
      else if storeP.any (fun r => r.wikidata_id = provinciaKeyOf item) then
        (storeP,
         { res with errors :=
            res.errors ++ ["Error procesando provincia " ++ bindingVal item "provinciaLabel"] })
      else (storeP ++ [rec], { res with created := res.created + 1 }) := by
    simp only [provStep]
    rw [if_neg hn, hrec]
  refine ⟨?_, ?_, ?_, ?_, ?_, ?_, ?_, ?_, ?_⟩
  · intro hany
    constructor
    · rw [hstep, if_pos hany]
      exact updateFirstBy_length _ _ _
    · intro r hr
      rw [hstep, if_pos hany] at hr
      rcases updateFirstBy_mem hr with h | ⟨y, hy, hp, rfl⟩
      · exact List.mem_map.mpr ⟨r, h, rfl⟩
      · exact List.mem_map.mpr ⟨y, hy, rfl⟩
  · intro hany hkey
    rw [hstep, if_neg (by simp [hany]), if_neg (by simp [hkey])]
    simp
  · intro hany hkey
    rw [hstep, if_neg (by simp [hany]), if_pos hkey]
    exact ⟨rfl, rfl⟩
  · intro hany hkey
    simp only [parqueStep]
    rw [if_neg hq, if_pos hany, if_neg (by rw [hkey]; exact Bool.false_ne_true)]
    exact updateFirstBy_length _ _ _
  · intro hany hkey
    simp only [parqueStep]
    rw [if_neg hq, if_pos hany, if_pos hkey]
    exact ⟨rfl, rfl⟩
  · intro hany hkey
    simp only [parqueStep]
    rw [if_neg hq, if_neg (by simp [hany]), if_neg (by simp [hkey])]
    simp
  · intro hany hkey
    simp only [parqueStep]
    rw [if_neg hq, if_neg (by simp [hany]), if_pos hkey]
    exact ⟨rfl, rfl⟩
  · intro hany
    simp only [plazaStep]
    rw [if_neg hz, if_pos hany]
    exact updateFirstBy_length _ _ _
  · intro hany
    simp only [plazaStep]
    rw [if_neg hz, if_neg (by simp [hany])]
    exact ⟨rfl, rfl⟩

/-- Witness for C1: a same-name province binding with key Q2 leaves the
store at one record (key Q1 kept); a fresh name with the fresh key Q2
creates; a fresh name carrying the already-stored key Q1 changes nothing;
a park name-match whose incoming key Q6 is free overwrites in place, while
the same binding against a store where the differently-named record R
holds Q6 changes nothing; a fresh park name creates with the fresh key Q6
and changes nothing with the stored key Q5; a plaza binding matching the
stored key Q7 overwrites in place; one missing the key changes no
record. -/
theorem claim1_witness :
    (provStep [] [] ([⟨some "A", "", none, none, none, none, "", "", "Q1", []⟩], ⟨0, 0, []⟩)
        [("provinciaLabel", "A"), ("provincia", "http://x/Q2")]).1.length = 1 ∧
    (provStep [] [] ([⟨some "A", "", none, none, none, none, "", "", "Q1", []⟩], ⟨0, 0, []⟩)
        [("provinciaLabel", "B"), ("provincia", "http://x/Q2")]).1.length = 1 + 1 ∧
    (provStep [] [] ([⟨some "A", "", none, none, none, none, "", "", "Q1", []⟩], ⟨0, 0, []⟩)
        [("provinciaLabel", "B"), ("provincia", "http://x/Q1")]).1 =
      [⟨some "A", "", none, none, none, none, "", "", "Q1", []⟩] ∧
    (parqueStep ([⟨some "P", "", none, none, none, none, "", "Q5"⟩], ⟨0, 0, []⟩)
        [("parqueLabel", "P"), ("parque", "http://x/Q6")]).1.length = 1 ∧
    (parqueStep ([⟨some "P", "", none, none, none, none, "", "Q5"⟩,
                  ⟨some "R", "", none, none, none, none, "", "Q6"⟩], ⟨0, 0, []⟩)
        [("parqueLabel", "P"), ("parque", "http://x/Q6")]).1 =
      [⟨some "P", "", none, none, none, none, "", "Q5"⟩,
       ⟨some "R", "", none, none, none, none, "", "Q6"⟩] ∧
    (parqueStep ([⟨some "P", "", none, none, none, none, "", "Q5"⟩], ⟨0, 0, []⟩)
        [("parqueLabel", "N"), ("parque", "http://x/Q6")]).1.length = 1 + 1 ∧
    (parqueStep ([⟨some "P", "", none, none, none, none, "", "Q5"⟩], ⟨0, 0, []⟩)
        [("parqueLabel", "N"), ("parque", "http://x/Q5")]).1 =
      [⟨some "P", "", none, none, none, none, "", "Q5"⟩] ∧
    (plazaStep ([⟨some "Z", "", "", none, none, "", "Q7"⟩], ⟨0, 0, []⟩)
        [("plazaLabel", "Z2"), ("plaza", "http://x/Q7")]).1.length = 1 ∧
    (plazaStep ([⟨some "Z", "", "", none, none, "", "Q7"⟩], ⟨0, 0, []⟩)
        [("plazaLabel", "W"), ("plaza", "http://x/Q9")]).1 =
      [⟨some "Z", "", "", none, none, "", "Q7"⟩] := by
  refine ⟨?_, ?_, ?_, ?_, ?_, ?_, ?_, ?_, ?_⟩
  · exact ((claim1_amended_upsert_keys
      [⟨some "A", "", none, none, none, none, "", "", "Q1", []⟩] [] [] [] [] ⟨0, 0, []⟩
      [("provinciaLabel", "A"), ("provincia", "http://x/Q2")] [("parqueLabel", "P")]
      [("plazaLabel", "W")] (by decide) (by intro e; cases e; decide) (by decide)
      (by decide)).1 (by decide)).1
  · exact (claim1_amended_upsert_keys
      [⟨some "A", "", none, none, none, none, "", "", "Q1", []⟩] [] [] [] [] ⟨0, 0, []⟩
      [("provinciaLabel", "B"), ("provincia", "http://x/Q2")] [("parqueLabel", "P")]
      [("plazaLabel", "W")] (by decide) (by intro e; cases e; decide) (by decide)
      (by decide)).2.1 (by decide) (by decide)
  · exact ((claim1_amended_upsert_keys
      [⟨some "A", "", none, none, none, none, "", "", "Q1", []⟩] [] [] [] [] ⟨0, 0, []⟩
      [("provinciaLabel", "B"), ("provincia", "http://x/Q1")] [("parqueLabel", "P")]
      [("plazaLabel", "W")] (by decide) (by intro e; cases e; decide) (by decide)
      (by decide)).2.2.1 (by decide) (by decide)).1
  · exact (claim1_amended_upsert_keys
      [⟨some "A", "", none, none, none, none, "", "", "Q1", []⟩]
      [⟨some "P", "", none, none, none, none, "", "Q5"⟩] [] [] [] ⟨0, 0, []⟩
      [("provinciaLabel", "A"), ("provincia", "http://x/Q2")]
      [("parqueLabel", "P"), ("parque", "http://x/Q6")]
      [("plazaLabel", "W")] (by decide) (by intro e; cases e; decide) (by decide)
      (by decide)).2.2.2.1 (by decide) (by decide)
  · exact ((claim1_amended_upsert_keys
      [⟨some "A", "", none, none, none, none, "", "", "Q1", []⟩]
      [⟨some "P", "", none, none, none, none, "", "Q5"⟩,
       ⟨some "R", "", none, none, none, none, "", "Q6"⟩] [] [] [] ⟨0, 0, []⟩
      [("provinciaLabel", "A"), ("provincia", "http://x/Q2")]
      [("parqueLabel", "P"), ("parque", "http://x/Q6")]
      [("plazaLabel", "W")] (by decide) (by intro e; cases e; decide) (by decide)
      (by decide)).2.2.2.2.1 (by decide) (by decide)).1
  · exact (claim1_amended_upsert_keys
      [⟨some "A", "", none, none, none, none, "", "", "Q1", []⟩]
      [⟨some "P", "", none, none, none, none, "", "Q5"⟩] [] [] [] ⟨0, 0, []⟩
      [("provinciaLabel", "A"), ("provincia", "http://x/Q2")]
      [("parqueLabel", "N"), ("parque", "http://x/Q6")]
      [("plazaLabel", "W")] (by decide) (by intro e; cases e; decide) (by decide)
      (by decide)).2.2.2.2.2.1 (by decide) (by decide)
  · exact ((claim1_amended_upsert_keys
      [⟨some "A", "", none, none, none, none, "", "", "Q1", []⟩]
      [⟨some "P", "", none, none, none, none, "", "Q5"⟩] [] [] [] ⟨0, 0, []⟩
      [("provinciaLabel", "A"), ("provincia", "http://x/Q2")]
      [("parqueLabel", "N"), ("parque", "http://x/Q5")]
      [("plazaLabel", "W")] (by decide) (by intro e; cases e; decide) (by decide)
      (by decide)).2.2.2.2.2.2.1 (by decide) (by decide)).1
  · exact (claim1_amended_upsert_keys
      [⟨some "A", "", none, none, none, none, "", "", "Q1", []⟩] []
      [⟨some "Z", "", "", none, none, "", "Q7"⟩] [] [] ⟨0, 0, []⟩
      [("provinciaLabel", "A"), ("provincia", "http://x/Q2")] [("parqueLabel", "P")]
      [("plazaLabel", "Z2"), ("plaza", "http://x/Q7")] (by decide)
      (by intro e; cases e; decide) (by decide) (by decide)).2.2.2.2.2.2.2.1 (by decide)
  · exact ((claim1_amended_upsert_keys
      [⟨some "A", "", none, none, none, none, "", "", "Q1", []⟩] []
      [⟨some "Z", "", "", none, none, "", "Q7"⟩] [] [] ⟨0, 0, []⟩
      [("provinciaLabel", "A"), ("provincia", "http://x/Q2")] [("parqueLabel", "P")]
      [("plazaLabel", "W"), ("plaza", "http://x/Q9")] (by decide)
      (by intro e; cases e; decide) (by decide) (by decide)).2.2.2.2.2.2.2.2 (by decide)).1

/-- C8 counterexample: `Islas Galápagos` and `Galápagos` differ only in an
occurrence of the stop word `islas` (plus whitespace), yet normalize to
different keys, because the substring replacement of `la` runs before
`las` and `islas` and destroys those stop words (and bites into
`galápagos` itself). -/
theorem claim8_counterexample :
    normalize_name "Islas Galápagos" = "issgapagos" ∧
    normalize_name "Galápagos" = "gapagos" ∧
    ¬ normalize_name "Islas Galápagos" = normalize_name "Galápagos" := by
  refine ⟨by decide, by decide, by decide⟩

theorem pyStrip_subset {c : Char} {l : List Char} (h : c ∈ pyStrip l) : c ∈ l := by
  unfold pyStrip at h
  rw [List.mem_reverse] at h
  have h2 := (List.dropWhile_sublist (l := (l.dropWhile isPySpace).reverse)
    (p := isPySpace)).subset h
  rw [List.mem_reverse] at h2
  exact (List.dropWhile_sublist (l := l) (p := isPySpace)).subset h2

/-- C8 (amended): the normalizer is a deterministic function of the name
alone whose output contains only the characters the cleanup keeps and no
whitespace; `Provincia del Guayas` and `Guayas Province` both normalize to
the key `guayas`.  The full stop-word invariance of the claim does not
hold: removal is by sequential substring replacement, so names differing
only in a stop word such as `islas` can map to different keys. -/
theorem claim8_amended_normalizer :
    normalize_name "Provincia del Guayas" = "guayas" ∧
    normalize_name "Guayas Province" = "guayas" ∧
    pyContains (normalize_name "Provincia del Guayas") "guayas" = true ∧
    ∀ (name : String) (c : Char), c ∈ (normalize_name name).toList →
      isCleanupKept c = true ∧ isPySpace c = false := by
  refine ⟨by decide, by decide, by decide, ?_⟩
  intro name c hc
  unfold normalize_name at hc
  split at hc
  · exact absurd hc (by simp)
  · simp only [String.toList] at hc
    rw [List.mem_filter] at hc
    have hc2 := hc
    have hsp : isPySpace c = false := by
      have := of_decide_eq_true hc2.2
      exact Bool.not_eq_true _ ▸ (by simpa using this)
    have hkept : isCleanupKept c = true :=
      (List.mem_filter.mp (pyStrip_subset hc2.1)).2
    exact ⟨hkept, hsp⟩

/-- Witness for C8 at the character `g` of the key of
`Provincia del Guayas`. -/
theorem claim8_witness :
    'g' ∈ (normalize_name "Provincia del Guayas").toList ∧
    isCleanupKept 'g' = true ∧ isPySpace 'g' = false :=
  ⟨by decide,
   (claim8_amended_normalizer.2.2.2 "Provincia del Guayas" 'g' (by decide)).1,
   (claim8_amended_normalizer.2.2.2 "Provincia del Guayas" 'g' (by decide)).2⟩

end TourConnect
